import Mathlib

/-!
# Ledger/payment engine of the HellTV payment service — shallow embedding

This file embeds the core ledger logic of the service in Lean:

* `AccountsService.applyComplete` / `applyReverse`      (src/modules/accounts/accounts.service.ts)
* `TransactionsService.calculateBalanceFromHistory`, `auditBalance`, `credit`, `debit`
                                                        (src/modules/transactions/transactions.service.ts)
* `TransactionsService.initiateTransfer`, `completeImmediately`, `completePayTransaction`,
  `failTransaction`                                      (the TransactionEngine variant of the service)
* `OrdersService.purchaseWithBalance`                    (src/modules/orders/orders.service.ts)
* `PaymentsService.createPaymentLink`, `handleProviderWebhook`
                                                        (src/modules/payments/payments.service.ts)
* `PrismaService.retryableTransaction`                   (src/modules/prisma/prisma.service.ts)

Modelling conventions:

* Monetary amounts (`Decimal` in the source) are exact rationals `ℚ`.
* Database rows live in a `Db` record of lists; `findUnique` is `List.find?` on the
  primary key, `update` maps over the list touching the matching row (SQL `UPDATE ... WHERE id =`),
  `create` appends.  Primary keys are `Nat` (the source uses cuid strings; they are opaque
  tokens).  Freshly generated ids are passed as explicit parameters.
* A Prisma interactive transaction (`$transaction`) is atomicity: each operation is a
  function `Db → Except AppError (α × Db)`; an `.error` result means the whole unit rolled
  back, so no intermediate `Db` escapes.
* The untyped JSON `meta` blob is a structure `TxnMeta` with the fields the code reads and
  writes (the JSON key "partial" is the field `partFlag`, since `partial` is a Lean keyword).
* Timestamps are an abstract `Nat` tick passed in as `now`.
-/

namespace HellTV

/-- Transaction lifecycle states (Prisma enum `TransactionState`). -/
inductive TransactionState where
  | HOLD
  | PENDING
  | COMPLETED
  | FAILED
deriving DecidableEq, Repr

/-- Transaction types (Prisma enum `TransactionType`). -/
inductive TransactionType where
  | CREDIT
  | DEBIT
  | ACCOUNT_REFILL
  | PRODUCT_PURCHASE
deriving DecidableEq, Repr

/-- Order statuses (Prisma enum `OrderStatus`); the core only produces `PAID`. -/
inductive OrderStatus where
  | NEW
  | PAID
  | DELIVERED
  | CANCELLED
deriving DecidableEq, Repr

/-- The structured content of the JSON `meta` column: every key the services read or
write.  The JSON key "partial" is rendered `partFlag`. -/
structure TxnMeta where
  productId : Option Nat := none
  partFlag : Bool := false
  partType : Option String := none
  linkedTransactionId : Option Nat := none
  source : Option String := none
  purpose : Option String := none
  provider : Option String := none
  balancePart : Option ℚ := none
  cardPart : Option ℚ := none
  purchaseTransactionIds : List Nat := []
  orderId : Option Nat := none
  description : Option String := none
deriving DecidableEq, Repr

/-- An `Account` row: cached `balance` plus cumulative `incoming`/`outgoing` counters. -/
structure Account where
  id : Nat
  userId : Nat
  balance : ℚ
  incoming : ℚ
  outgoing : ℚ
deriving DecidableEq, Repr

/-- A `Transaction` row. -/
structure Txn where
  id : Nat
  type : TransactionType
  state : TransactionState
  accountAId : Nat
  accountBId : Nat
  amountOut : ℚ
  amountIn : ℚ
  meta : TxnMeta := {}
  providerSessionId : Option Nat := none
  paymentIntentId : Option Nat := none
  completedAt : Option Nat := none
deriving DecidableEq, Repr

/-- An `Order` row. -/
structure Order where
  id : Nat
  productId : Nat
  buyerUserId : Nat
  sellerUserId : Nat
  totalPrice : ℚ
  status : OrderStatus
deriving DecidableEq, Repr

/-- A `Product` row (read-only input to pricing). -/
structure Product where
  id : Nat
  price : ℚ
  active : Bool
deriving DecidableEq, Repr

/-- The relational store: `users` is the list of existing user ids. -/
structure Db where
  users : List Nat
  accounts : List Account
  transactions : List Txn
  orders : List Order
  products : List Product
deriving DecidableEq, Repr

/-- Application-level errors (the NestJS exception classes). -/
inductive AppError where
  | badRequest (msg : String)
  | notFound (msg : String)
  | internalError (msg : String)
deriving DecidableEq, Repr

instance {ε α : Type} [DecidableEq ε] [DecidableEq α] : DecidableEq (Except ε α) := fun x y =>
  match x, y with
  | .ok a, .ok b =>
    if h : a = b then .isTrue (by rw [h]) else .isFalse (by intro hc; cases hc; exact h rfl)
  | .error a, .error b =>
    if h : a = b then .isTrue (by rw [h]) else .isFalse (by intro hc; cases hc; exact h rfl)
  | .ok _, .error _ => .isFalse (by intro hc; cases hc)
  | .error _, .ok _ => .isFalse (by intro hc; cases hc)

/-! ## Row lookups and mutations -/

def findAccountById (db : Db) (id : Nat) : Option Account :=
  db.accounts.find? (fun a => a.id = id)

def findAccountByUserId (db : Db) (userId : Nat) : Option Account :=
  db.accounts.find? (fun a => a.userId = userId)

def findTxn (db : Db) (id : Nat) : Option Txn :=
  db.transactions.find? (fun t => t.id = id)

def findOrder (db : Db) (id : Nat) : Option Order :=
  db.orders.find? (fun o => o.id = id)

def findProduct (db : Db) (id : Nat) : Option Product :=
  db.products.find? (fun p => p.id = id)

/-- `AccountsService.getById`: `NotFoundException` when absent. -/
def getById (db : Db) (id : Nat) : Except AppError Account :=
  match findAccountById db id with
  | some a => .ok a
  | none => .error (.notFound "Account not found")

/-- `AccountsService.getByUserId`: `NotFoundException` when absent. -/
def getByUserId (db : Db) (userId : Nat) : Except AppError Account :=
  match findAccountByUserId db userId with
  | some a => .ok a
  | none => .error (.notFound "Account for user not found")

/-- `UsersService.findById` (cache elided): `NotFoundException` when the user is absent. -/
def findUserById (db : Db) (id : Nat) : Except AppError Nat :=
  if id ∈ db.users then .ok id else .error (.notFound "User not found")

/-- `ProductsService.findById`: `NotFoundException` when absent. -/
def findProductById (db : Db) (id : Nat) : Except AppError Product :=
  match findProduct db id with
  | some p => .ok p
  | none => .error (.notFound "Product not found")

/-- `UPDATE Account ... WHERE id = aid` (callers only update rows they just fetched). -/
def updateAccount (db : Db) (aid : Nat) (f : Account → Account) : Db :=
  { db with accounts := db.accounts.map (fun a => if a.id = aid then f a else a) }

/-- `UPDATE Transaction ... WHERE id = tid`. -/
def updateTxn (db : Db) (tid : Nat) (f : Txn → Txn) : Db :=
  { db with transactions := db.transactions.map (fun t => if t.id = tid then f t else t) }

/-- `INSERT` of a transaction row. -/
def createTxn (db : Db) (t : Txn) : Db :=
  { db with transactions := db.transactions ++ [t] }

/-- `INSERT` of an order row. -/
def createOrder (db : Db) (o : Order) : Db :=
  { db with orders := db.orders ++ [o] }

/-! ## `calculateBalanceFromHistory` (TransactionsService) -/

/-- One iteration of the balance loop: add `amountIn` when this account is the
destination, subtract `amountOut` when it is the source (both, when it is both). -/
def applyTxnToBalance (accountId : Nat) (calculatedBalance : ℚ) (tx : Txn) : ℚ :=
  let calculatedBalance :=
    if tx.accountBId = accountId then calculatedBalance + tx.amountIn else calculatedBalance
  if tx.accountAId = accountId then calculatedBalance - tx.amountOut else calculatedBalance

/-- `TransactionsService.calculateBalanceFromHistory`: looks the account up (NotFound when
absent), selects all COMPLETED transactions where the account is source or destination,
and folds the balance loop over them starting from 0.  The cached `Account.balance` is
never read. -/
def calculateBalanceFromHistory (db : Db) (accountId : Nat) : Except AppError ℚ :=
  match getById db accountId with
  | .error e => .error e
  | .ok _account =>
    let transactions := db.transactions.filter (fun t =>
      t.state = TransactionState.COMPLETED ∧
        (t.accountAId = accountId ∨ t.accountBId = accountId))
    .ok (transactions.foldl (applyTxnToBalance accountId) 0)

/-- The spec's Σ formulation: sum of `amountIn` over COMPLETED transactions whose
destination is the account. -/
def specIncomingSum (db : Db) (accountId : Nat) : ℚ :=
  ((db.transactions.filter (fun t =>
      t.state = TransactionState.COMPLETED ∧ t.accountBId = accountId)).map
    (fun t => t.amountIn)).sum

/-- The spec's Σ formulation: sum of `amountOut` over COMPLETED transactions whose
source is the account. -/
def specOutgoingSum (db : Db) (accountId : Nat) : ℚ :=
  ((db.transactions.filter (fun t =>
      t.state = TransactionState.COMPLETED ∧ t.accountAId = accountId)).map
    (fun t => t.amountOut)).sum

/-- Replace every account's cached balance (used to state independence from the cache). -/
def setBalances (db : Db) (f : Account → ℚ) : Db :=
  { db with accounts := db.accounts.map (fun a => { a with balance := f a }) }

/-- Net contribution of a single transaction to an account's history balance. -/
def balContribution (accountId : Nat) (t : Txn) : ℚ :=
  (if t.accountBId = accountId then t.amountIn else 0) -
    (if t.accountAId = accountId then t.amountOut else 0)

lemma applyTxnToBalance_eq (accountId : Nat) (a : ℚ) (t : Txn) :
    applyTxnToBalance accountId a t = a + balContribution accountId t := by
  unfold applyTxnToBalance balContribution
  by_cases hB : t.accountBId = accountId <;> by_cases hA : t.accountAId = accountId <;>
    simp [hA, hB] <;> ring

lemma balanceFold_shift (accountId : Nat) (l : List Txn) (a : ℚ) :
    l.foldl (applyTxnToBalance accountId) a =
      a + l.foldl (applyTxnToBalance accountId) 0 := by
  induction l generalizing a with
  | nil => simp
  | cons t l ih =>
    simp only [List.foldl_cons]
    rw [ih, ih (applyTxnToBalance accountId 0 t)]
    rw [applyTxnToBalance_eq, applyTxnToBalance_eq]
    ring

lemma balanceFold_eq_sum (accountId : Nat) (l : List Txn) :
    l.foldl (applyTxnToBalance accountId) 0 = (l.map (balContribution accountId)).sum := by
  induction l with
  | nil => simp
  | cons t l ih =>
    rw [List.foldl_cons, balanceFold_shift, ih, applyTxnToBalance_eq]
    simp

lemma contribution_filter_sum (accountId : Nat) (l : List Txn) :
    ((l.filter (fun t =>
        t.state = TransactionState.COMPLETED ∧
          (t.accountAId = accountId ∨ t.accountBId = accountId))).map
      (balContribution accountId)).sum =
    ((l.filter (fun t =>
        t.state = TransactionState.COMPLETED ∧ t.accountBId = accountId)).map
      (fun t => t.amountIn)).sum -
    ((l.filter (fun t =>
        t.state = TransactionState.COMPLETED ∧ t.accountAId = accountId)).map
      (fun t => t.amountOut)).sum := by
  induction l with
  | nil => simp
  | cons t l ih =>
    simp only [List.filter_cons]
    simp only [Bool.decide_and, Bool.decide_or] at ih
    by_cases hS : t.state = TransactionState.COMPLETED <;>
      by_cases hA : t.accountAId = accountId <;>
      by_cases hB : t.accountBId = accountId <;>
      simp [hS, hA, hB, balContribution, ih] <;> ring

lemma findAccountById_setBalances (db : Db) (f : Account → ℚ) (aid : Nat) :
    findAccountById (setBalances db f) aid =
      (findAccountById db aid).map (fun a => { a with balance := f a }) := by
  unfold findAccountById setBalances
  simp only
  induction db.accounts with
  | nil => rfl
  | cons a l ih =>
    by_cases h : a.id = aid <;> simp [List.find?_cons, h, ih]

/-- Sample ledger used as the concrete witness input: a service account and a user
account holding 500 credited by a single COMPLETED CREDIT transfer. -/
def c1db : Db :=
  { users := [1, 2]
    accounts := [{ id := 1, userId := 1, balance := -500, incoming := 0, outgoing := 500 },
                 { id := 2, userId := 2, balance := 500, incoming := 500, outgoing := 0 }]
    transactions := [{ id := 7, type := .CREDIT, state := .COMPLETED,
                       accountAId := 1, accountBId := 2,
                       amountOut := 500, amountIn := 500, completedAt := some 1 },
                     { id := 8, type := .ACCOUNT_REFILL, state := .HOLD,
                       accountAId := 1, accountBId := 2,
                       amountOut := 70, amountIn := 70 }]
    orders := []
    products := [] }

/-- **C1.** `calculateBalanceFromHistory(accountId)` returns
Σ(amountIn over COMPLETED transactions whose destination is the account) −
Σ(amountOut over COMPLETED transactions whose source is the account); transactions in
HOLD, PENDING or FAILED state contribute nothing (the sums range over COMPLETED rows
only), and the result does not depend on any cached `Account.balance` value. -/
theorem calculateBalanceFromHistory_spec (db : Db) (accountId : Nat) (b : ℚ)
    (h : calculateBalanceFromHistory db accountId = .ok b) :
    b = specIncomingSum db accountId - specOutgoingSum db accountId ∧
      ∀ f : Account → ℚ,
        calculateBalanceFromHistory (setBalances db f) accountId =
          calculateBalanceFromHistory db accountId := by
  constructor
  · unfold calculateBalanceFromHistory at h
    match hg : getById db accountId with
    | .error e => rw [hg] at h; exact absurd h (by simp)
    | .ok a =>
      rw [hg] at h
      simp only [Except.ok.injEq] at h
      rw [← h, balanceFold_eq_sum, contribution_filter_sum]
      rfl
  · intro f
    unfold calculateBalanceFromHistory getById
    rw [findAccountById_setBalances]
    have htx : (setBalances db f).transactions = db.transactions := rfl
    cases findAccountById db accountId <;> simp [htx]

/-- Witness for C1 at the concrete ledger `c1db`: the user account's history balance
is 500 and coincides with the Σ−Σ form (the HOLD transaction contributes nothing). -/
theorem calculateBalanceFromHistory_spec_witness :
    calculateBalanceFromHistory c1db 2 = .ok 500 ∧
      (500 : ℚ) = specIncomingSum c1db 2 - specOutgoingSum c1db 2 := by
  have h : calculateBalanceFromHistory c1db 2 = .ok 500 := by
    norm_num [calculateBalanceFromHistory, getById, findAccountById, c1db,
      List.find?, List.filter, List.foldl, applyTxnToBalance]
  exact ⟨h, (calculateBalanceFromHistory_spec c1db 2 500 h).1⟩

/-! ## AccountsService: `applyComplete` / `applyReverse` -/

/-- `AccountsService.applyComplete`: within the caller's atomic scope, debit the source
account (balance − amountOut, outgoing + amountOut) and credit the destination account
(balance + amountIn, incoming + amountIn). -/
def applyComplete (transaction : Txn) (db : Db) : Db :=
  let db := updateAccount db transaction.accountAId (fun a =>
    { a with balance := a.balance - transaction.amountOut,
             outgoing := a.outgoing + transaction.amountOut })
  updateAccount db transaction.accountBId (fun a =>
    { a with balance := a.balance + transaction.amountIn,
             incoming := a.incoming + transaction.amountIn })

/-- `AccountsService.applyReverse`: the exact inverse of `applyComplete`. -/
def applyReverse (transaction : Txn) (db : Db) : Db :=
  let db := updateAccount db transaction.accountAId (fun a =>
    { a with balance := a.balance + transaction.amountOut,
             outgoing := a.outgoing - transaction.amountOut })
  updateAccount db transaction.accountBId (fun a =>
    { a with balance := a.balance - transaction.amountIn,
             incoming := a.incoming - transaction.amountIn })

/-! ## TransactionsService: audit, credit, debit -/

/-- `TransactionsService.auditBalance`: compare the cached balance with the
history-derived balance; above a 0.01 absolute tolerance raise an
`InternalServerErrorException`. -/
def auditBalance (db : Db) (accountId : Nat) : Except AppError Unit :=
  match getById db accountId with
  | .error e => .error e
  | .ok account =>
    match calculateBalanceFromHistory db accountId with
    | .error e => .error e
    | .ok calculatedBalance =>
      if |account.balance - calculatedBalance| > 1 / 100 then
        .error (.internalError "Balance audit failed")
      else
        .ok ()

/-- The atomic unit of `TransactionsService.credit` (the `retryableTransaction` body):
create the CREDIT row in HOLD, move service → user balances, mark COMPLETED.  It
performs no reads that can fail, so it is total. -/
def creditAtomic (serviceAccount userAccount : Account) (amount : ℚ)
    (description : Option String) (newTxnId now : Nat) (db : Db) : Txn × Db :=
  let transaction : Txn :=
    { id := newTxnId, type := .CREDIT, state := .HOLD,
      accountAId := serviceAccount.id, accountBId := userAccount.id,
      amountOut := amount, amountIn := amount,
      meta := { description := description } }
  let db := createTxn db transaction
  let db := updateAccount db serviceAccount.id (fun a =>
    { a with balance := a.balance - amount, outgoing := a.outgoing + amount })
  let db := updateAccount db userAccount.id (fun a =>
    { a with balance := a.balance + amount, incoming := a.incoming + amount })
  let db := updateTxn db newTxnId (fun t =>
    { t with state := .COMPLETED, completedAt := some now })
  ({ transaction with state := .COMPLETED, completedAt := some now }, db)

/-- `TransactionsService.credit`: validation, account lookups, a synchronous
`auditBalance` before the atomic unit, the atomic unit itself, and a second synchronous
`auditBalance` after it.  Both audits are awaited with no try/catch, so their errors
propagate to the caller; an error from the post-audit leaves the committed state. -/
def credit (db : Db) (userId : Nat) (amount : ℚ) (description : Option String)
    (newTxnId now : Nat) : Except AppError Txn × Db :=
  if amount ≤ 0 then (.error (.badRequest "Amount must be positive"), db)
  else
    match getByUserId db 1 with
    | .error e => (.error e, db)
    | .ok serviceAccount =>
      match getByUserId db userId with
      | .error e => (.error e, db)
      | .ok userAccount =>
        match auditBalance db userAccount.id with
        | .error e => (.error e, db)
        | .ok _ =>
          let (completed, db4) :=
            creditAtomic serviceAccount userAccount amount description newTxnId now db
          match auditBalance db4 userAccount.id with
          | .error e => (.error e, db4)
          | .ok _ => (.ok completed, db4)

/-- The atomic unit of `TransactionsService.debit`: create the DEBIT row, move
user → service balances, mark COMPLETED, and create the Order when a productId was
given (failing — and rolling the unit back — when the product does not exist). -/
def debitAtomic (serviceAccount userAccount : Account) (userId : Nat) (amount : ℚ)
    (productId : Option Nat) (description : Option String) (newTxnId newOrderId now : Nat)
    (db : Db) : Except AppError ((Txn × Option Nat) × Db) :=
  let transaction : Txn :=
    { id := newTxnId, type := .DEBIT, state := .HOLD,
      accountAId := userAccount.id, accountBId := serviceAccount.id,
      amountOut := amount, amountIn := amount,
      meta := { productId := productId, description := description } }
  let db1 := createTxn db transaction
  let db2 := updateAccount db1 userAccount.id (fun a =>
    { a with balance := a.balance - amount, outgoing := a.outgoing + amount })
  let db3 := updateAccount db2 serviceAccount.id (fun a =>
    { a with balance := a.balance + amount, incoming := a.incoming + amount })
  let db4 := updateTxn db3 newTxnId (fun t =>
    { t with state := .COMPLETED, completedAt := some now })
  let completed : Txn := { transaction with state := .COMPLETED, completedAt := some now }
  match productId with
  | none => .ok ((completed, none), db4)
  | some pid =>
    match findProduct db4 pid with
    | none => .error (.badRequest "Product not found")
    | some _product =>
      let order : Order :=
        { id := newOrderId, productId := pid, buyerUserId := userId,
          sellerUserId := 1, totalPrice := amount, status := .PAID }
      .ok ((completed, some newOrderId), createOrder db4 order)

/-- `TransactionsService.debit`: validation, lookups, the history-derived
sufficient-balance check, synchronous audit, atomic unit, synchronous audit. -/
def debit (db : Db) (userId : Nat) (amount : ℚ) (productId : Option Nat)
    (description : Option String) (newTxnId newOrderId now : Nat) :
    Except AppError (Txn × Option Nat) × Db :=
  if amount ≤ 0 then (.error (.badRequest "Amount must be positive"), db)
  else
    match getByUserId db 1 with
    | .error e => (.error e, db)
    | .ok serviceAccount =>
      match getByUserId db userId with
      | .error e => (.error e, db)
      | .ok userAccount =>
        match calculateBalanceFromHistory db userAccount.id with
        | .error e => (.error e, db)
        | .ok currentBalance =>
          if currentBalance < amount then
            (.error (.badRequest "Insufficient balance"), db)
          else
            match auditBalance db userAccount.id with
            | .error e => (.error e, db)
            | .ok _ =>
              match debitAtomic serviceAccount userAccount userId amount productId
                  description newTxnId newOrderId now db with
              | .error e => (.error e, db)
              | .ok (result, db5) =>
                match auditBalance db5 userAccount.id with
                | .error e => (.error e, db5)
                | .ok _ => (.ok result, db5)

/-! ## TransactionEngine: initiateTransfer and the completion/failure paths -/

/-- `TransactionsService.initiateTransfer`: rejects identical source/destination and
non-positive amounts; creates a HOLD transaction with `amountOut = amountIn = amount`;
no balance side effects. -/
def initiateTransfer (db : Db) (accountAId accountBId : Nat) (amount : ℚ)
    (type : TransactionType) (meta : TxnMeta) (newTxnId : Nat) :
    Except AppError (Txn × Db) :=
  if accountAId = accountBId then
    .error (.badRequest "Source and destination accounts must be different")
  else if amount ≤ 0 then
    .error (.badRequest "Amount must be positive")
  else
    let transaction : Txn :=
      { id := newTxnId, type := type, state := .HOLD,
        accountAId := accountAId, accountBId := accountBId,
        amountOut := amount, amountIn := amount, meta := meta }
    .ok (transaction, createTxn db transaction)

/-- `TransactionsService.completeImmediately` (single `$transaction`): idempotent on
COMPLETED (returns the row, no mutation), rejects states other than PENDING/HOLD,
otherwise applies the ledger effect and marks COMPLETED with a completion timestamp. -/
def completeImmediately (db : Db) (transactionId now : Nat) :
    Except AppError (Txn × Db) :=
  match findTxn db transactionId with
  | none => .error (.badRequest "Transaction not found")
  | some transaction =>
    if transaction.state = .COMPLETED then
      .ok (transaction, db)
    else if transaction.state ≠ .PENDING ∧ transaction.state ≠ .HOLD then
      .error (.badRequest "Transaction has invalid state")
    else
      let db1 := applyComplete transaction db
      let db2 := updateTxn db1 transactionId (fun t =>
        { t with state := .COMPLETED, completedAt := some now })
      .ok ({ transaction with state := .COMPLETED, completedAt := some now }, db2)

/-- `TransactionsService.completePayTransaction` (single `$transaction`): silent return
on COMPLETED; rejects states other than PENDING/HOLD; completes the refill leg; when
`meta.productId` is present, creates + completes the card-covered PRODUCT_PURCHASE leg
(the second leg of a partial payment, or the single full-price leg) and the PAID Order,
and annotates the refill's meta with the purchase transaction ids and the order id —
all in the same atomic unit. -/
def completePayTransaction (db : Db) (transactionId newTxnId newOrderId now : Nat) :
    Except AppError Db :=
  match findTxn db transactionId with
  | none => .error (.badRequest "Transaction not found")
  | some refillTransaction =>
    if refillTransaction.state = .COMPLETED then
      .ok db
    else if refillTransaction.state ≠ .PENDING ∧ refillTransaction.state ≠ .HOLD then
      .error (.badRequest "Transaction has invalid state")
    else
      let db1 := applyComplete refillTransaction db
      let db2 := updateTxn db1 transactionId (fun t =>
        { t with state := .COMPLETED, completedAt := some now })
      let meta := refillTransaction.meta
      match meta.productId with
      | none =>
        .ok (updateTxn db2 transactionId (fun t => { t with meta := meta }))
      | some productId =>
        match findProduct db2 productId with
        | none => .error (.badRequest "Product not found")
        | some product =>
          let buyerAccountId := refillTransaction.accountBId
          match findAccountById db2 buyerAccountId with
          | none => .error (.internalError "buyer account missing")
          | some buyerAccount =>
            let buyerUserId := buyerAccount.userId
            match findAccountByUserId db2 1 with
            | none => .error (.internalError "seller account missing")
            | some sellerAccount =>
              match meta.partFlag, meta.linkedTransactionId with
              | true, some linkedTransactionId =>
                match findTxn db2 linkedTransactionId with
                | none => .error (.badRequest "Linked transaction not found")
                | some balanceTransaction =>
                  let cardPurchaseTransaction : Txn :=
                    { id := newTxnId, type := .PRODUCT_PURCHASE, state := .HOLD,
                      accountAId := buyerAccountId, accountBId := sellerAccount.id,
                      amountOut := refillTransaction.amountIn,
                      amountIn := refillTransaction.amountIn,
                      meta := { productId := some productId, partFlag := true,
                                partType := some "card_refill",
                                linkedTransactionId := some balanceTransaction.id } }
                  let db3 := createTxn db2 cardPurchaseTransaction
                  let db4 := applyComplete cardPurchaseTransaction db3
                  let db5 := updateTxn db4 newTxnId (fun t =>
                    { t with state := .COMPLETED, completedAt := some now })
                  let purchaseTransactionIds := [balanceTransaction.id, newTxnId]
                  let order : Order :=
                    { id := newOrderId, productId := productId,
                      buyerUserId := buyerUserId, sellerUserId := 1,
                      totalPrice := product.price, status := .PAID }
                  let db6 := createOrder db5 order
                  let newMeta :=
                    { meta with purchaseTransactionIds := purchaseTransactionIds,
                                orderId := some newOrderId }
                  .ok (updateTxn db6 transactionId (fun t => { t with meta := newMeta }))
              | _, _ =>
                let cardPurchaseTransaction : Txn :=
                  { id := newTxnId, type := .PRODUCT_PURCHASE, state := .HOLD,
                    accountAId := buyerAccountId, accountBId := sellerAccount.id,
                    amountOut := product.price, amountIn := product.price,
                    meta := { productId := some productId } }
                let db3 := createTxn db2 cardPurchaseTransaction
                let db4 := applyComplete cardPurchaseTransaction db3
                let db5 := updateTxn db4 newTxnId (fun t =>
                  { t with state := .COMPLETED, completedAt := some now })
                let purchaseTransactionIds := [newTxnId]
                let order : Order :=
                  { id := newOrderId, productId := productId,
                    buyerUserId := buyerUserId, sellerUserId := 1,
                    totalPrice := product.price, status := .PAID }
                let db6 := createOrder db5 order
                let newMeta :=
                  { meta with purchaseTransactionIds := purchaseTransactionIds,
                              orderId := some newOrderId }
                .ok (updateTxn db6 transactionId (fun t => { t with meta := newMeta }))

/-- `TransactionsService.failTransaction` (single `$transaction`): idempotent on FAILED,
rejects COMPLETED, otherwise marks FAILED (HOLD never touched balances, so nothing is
reversed). -/
def failTransaction (db : Db) (transactionId : Nat) : Except AppError Db :=
  match findTxn db transactionId with
  | none => .error (.badRequest "Transaction not found")
  | some transaction =>
    if transaction.state = .FAILED then
      .ok db
    else if transaction.state = .COMPLETED then
      .error (.badRequest "Cannot fail completed transaction")
    else
      .ok (updateTxn db transactionId (fun t => { t with state := .FAILED }))

/-! ## OrdersService: `purchaseWithBalance` -/

/-- `OrdersService.purchaseWithBalance`: product lookup + active check, then the
sufficiency check against the **cached** `Account.balance` (orders.service.ts line 96),
then `initiateTransfer` (outside the atomic block) and an atomic block that moves the
balances inline, completes the transaction and creates the PAID Order. -/
def purchaseWithBalance (db : Db) (userId productId newTxnId newOrderId now : Nat) :
    Except AppError Order × Db :=
  match findProductById db productId with
  | .error e => (.error e, db)
  | .ok product =>
    if ¬product.active then
      (.error (.badRequest "Product is not available for purchase"), db)
    else
      match getByUserId db userId with
      | .error e => (.error e, db)
      | .ok userAccount =>
        if userAccount.balance < product.price then
          (.error (.badRequest "Insufficient balance"), db)
        else
          match findUserById db 1 with
          | .error e => (.error e, db)
          | .ok serviceUserId =>
            match getByUserId db serviceUserId with
            | .error e => (.error e, db)
            | .ok serviceAccount =>
              match initiateTransfer db userAccount.id serviceAccount.id product.price
                  .PRODUCT_PURCHASE
                  { productId := some productId, source := some "balance" } newTxnId with
              | .error e => (.error e, db)
              | .ok (purchaseTransaction, db1) =>
                match findTxn db1 purchaseTransaction.id with
                | none => (.error (.badRequest "Transaction not found"), db1)
                | some _ =>
                  let db2 := updateAccount db1 userAccount.id (fun a =>
                    { a with balance := a.balance - product.price,
                             outgoing := a.outgoing + product.price })
                  let db3 := updateAccount db2 serviceAccount.id (fun a =>
                    { a with balance := a.balance + product.price,
                             incoming := a.incoming + product.price })
                  let db4 := updateTxn db3 purchaseTransaction.id (fun t =>
                    { t with state := .COMPLETED, completedAt := some now })
                  let createdOrder : Order :=
                    { id := newOrderId, productId := productId, buyerUserId := userId,
                      sellerUserId := serviceUserId, totalPrice := product.price,
                      status := .PAID }
                  (.ok createdOrder, createOrder db4 createdOrder)

/-! ## PaymentsService: `createPaymentLink` and `handleProviderWebhook` -/

/-- What `createPaymentLink` returns to the caller (`url` elided: it is a pure render
of the provider session id). -/
structure PaymentLinkResult where
  transactionId : Nat
  paymentIntentId : Nat
deriving DecidableEq, Repr

/-- `PaymentsService.createPaymentLink`: resolves the flow from the **cached** balance
vs the product price; `balance ≥ price` is rejected; `0 < balance < price` runs the
partial flow (complete a balance-covered PRODUCT_PURCHASE leg immediately, open a HOLD
ACCOUNT_REFILL for the remainder with a back-link in `meta`); `balance = 0` opens a
full-price HOLD ACCOUNT_REFILL; no product opens a fixed-amount (100) refill.  The
provider session identifiers are persisted onto the HOLD transaction afterwards. -/
def createPaymentLink (db : Db) (userId : Nat) (productId? : Option Nat)
    (balanceTxnId refillTxnId sessionId intentId now : Nat) :
    Except AppError PaymentLinkResult × Db :=
  match findUserById db userId with
  | .error e => (.error e, db)
  | .ok _ =>
    match getByUserId db userId with
    | .error e => (.error e, db)
    | .ok userAccount =>
      match findUserById db 1 with
      | .error e => (.error e, db)
      | .ok serviceUserId =>
        match getByUserId db serviceUserId with
        | .error e => (.error e, db)
        | .ok serviceAccount =>
          match productId? with
          | some productId =>
            match findProductById db productId with
            | .error e => (.error e, db)
            | .ok product =>
              if userAccount.balance ≥ product.price then
                (.error (.badRequest "You have sufficient balance"), db)
              else if userAccount.balance > 0 then
                let balancePart := userAccount.balance
                let cardPart := product.price - userAccount.balance
                match initiateTransfer db userAccount.id serviceAccount.id balancePart
                    .PRODUCT_PURCHASE
                    { productId := some productId, partFlag := true,
                      partType := some "balance", source := some "balance" }
                    balanceTxnId with
                | .error e => (.error e, db)
                | .ok (balanceTransaction, db1) =>
                  match completeImmediately db1 balanceTransaction.id now with
                  | .error e => (.error e, db1)
                  | .ok (_, db2) =>
                    let meta : TxnMeta :=
                      { provider := some "stub", productId := some productId,
                        purpose := some "purchase", partFlag := true,
                        balancePart := some balancePart, cardPart := some cardPart,
                        linkedTransactionId := some balanceTransaction.id }
                    match initiateTransfer db2 serviceAccount.id userAccount.id cardPart
                        .ACCOUNT_REFILL meta refillTxnId with
                    | .error e => (.error e, db2)
                    | .ok (transaction, db3) =>
                      let db4 := updateTxn db3 transaction.id (fun t =>
                        { t with providerSessionId := some sessionId,
                                 paymentIntentId := some intentId })
                      (.ok { transactionId := transaction.id,
                             paymentIntentId := intentId }, db4)
              else
                let meta : TxnMeta :=
                  { provider := some "stub", productId := some productId,
                    purpose := some "purchase" }
                match initiateTransfer db serviceAccount.id userAccount.id product.price
                    .ACCOUNT_REFILL meta refillTxnId with
                | .error e => (.error e, db)
                | .ok (transaction, db1) =>
                  let db2 := updateTxn db1 transaction.id (fun t =>
                    { t with providerSessionId := some sessionId,
                             paymentIntentId := some intentId })
                  (.ok { transactionId := transaction.id,
                         paymentIntentId := intentId }, db2)
          | none =>
            let meta : TxnMeta := { provider := some "stub", purpose := some "refill" }
            match initiateTransfer db serviceAccount.id userAccount.id 100
                .ACCOUNT_REFILL meta refillTxnId with
            | .error e => (.error e, db)
            | .ok (transaction, db1) =>
              let db2 := updateTxn db1 transaction.id (fun t =>
                { t with providerSessionId := some sessionId,
                         paymentIntentId := some intentId })
              (.ok { transactionId := transaction.id,
                     paymentIntentId := intentId }, db2)

/-- A parsed provider webhook event (`ProviderEvent` in common/types). -/
inductive ProviderEventType where
  | success
  | failed
  | other (name : String)
deriving DecidableEq, Repr

structure ProviderEvent where
  type : ProviderEventType
  transactionId : Nat
  paymentIntentId : Nat
deriving DecidableEq, Repr

/-- `TransactionsService.findByPaymentIntentId`. -/
def findByPaymentIntentId (db : Db) (intentId : Nat) : Option Txn :=
  db.transactions.find? (fun t => t.paymentIntentId = some intentId)

/-- `PaymentsService.handleProviderWebhook`: resolve by paymentIntentId, falling back
to transactionId (NotFound-style error when neither resolves); no-op when the
transaction is already terminal; dispatch success → `completePayTransaction`,
failed → `failTransaction`; unrecognized types are logged and ignored. -/
def handleProviderWebhook (db : Db) (event : ProviderEvent)
    (newTxnId newOrderId now : Nat) : Except AppError Unit × Db :=
  let transaction? :=
    match findByPaymentIntentId db event.paymentIntentId with
    | some t => some t
    | none => findTxn db event.transactionId
  match transaction? with
  | none => (.error (.badRequest "Transaction not found"), db)
  | some transaction =>
    if transaction.state = .COMPLETED ∨ transaction.state = .FAILED then
      (.ok (), db)
    else
      match event.type with
      | .success =>
        match completePayTransaction db transaction.id newTxnId newOrderId now with
        | .error e => (.error e, db)
        | .ok db1 => (.ok (), db1)
      | .failed =>
        match failTransaction db transaction.id with
        | .error e => (.error e, db)
        | .ok db1 => (.ok (), db1)
      | .other _ => (.ok (), db)

/-- The async audit listener (`TransactionAuditListener.handleTransactionCompleted`):
runs `auditBalance` inside try/catch, so failures are logged only and never propagate. -/
def handleTransactionCompleted (db : Db) (accountId : Nat) : Except AppError Unit :=
  match auditBalance db accountId with
  | .ok _ => .ok ()
  | .error _ => .ok ()

/-! ## PrismaService: `$transaction` vs `retryableTransaction`

A store-level failure of an attempt (deadlock, serialization failure, connection loss)
is injected by an environment `env : Nat → Option StoreError` giving the failure, if
any, of the k-th `$transaction` attempt.  `credit`/`debit` wrap their atomic unit in
`retryableTransaction`; `completeImmediately`, `completePayTransaction`,
`failTransaction` and the `purchaseWithBalance` block call plain `$transaction`, which
is a single attempt. -/

/-- A thrown store/app error as `isRetryableError` sees it: a `code` and a `message`. -/
structure StoreError where
  code : String
  message : String
deriving DecidableEq, Repr

/-- The PostgreSQL error codes `isRetryableError` retries on. -/
def retryableCodes : List String :=
  ["40001", "40P01", "08000", "08003", "08006", "57P03", "53300"]

/-- `pattern` occurs as a substring of `s` (the `String.includes` check). -/
def containsSub (s pattern : String) : Bool :=
  decide (pattern.toList <:+: s.toList)

/-- `isRetryableError` (prisma.service.ts): retryable code, or a lowercased message
mentioning deadlock / serialization / connection / timeout. -/
def isRetryableError (code message : String) : Bool :=
  retryableCodes.contains code ||
    containsSub message.toLower "deadlock" ||
    containsSub message.toLower "serialization" ||
    containsSub message.toLower "connection" ||
    containsSub message.toLower "timeout"

/-- What a wrapped call can throw: an application error or a store error, with a flag
recording whether the retry loop annotated it as "Max retry attempts reached". -/
inductive RunError where
  | app (annotated : Bool) (e : AppError)
  | store (annotated : Bool) (e : StoreError)
deriving DecidableEq, Repr

/-- Retryability of a thrown error.  Application exceptions carry no PostgreSQL code
and none of their messages mention deadlock/serialization/connection/timeout, so only
store errors can be retryable. -/
def isRetryableRunError : RunError → Bool
  | .app _ _ => false
  | .store _ e => isRetryableError e.code e.message

/-- `err.message = "Max retry attempts reached: ..."` before the final rethrow. -/
def annotateRunError : RunError → RunError
  | .app _ e => .app true e
  | .store _ e => .store true e

/-- One `$transaction` attempt: the environment's injected store failure for this
attempt, or the body's own outcome. -/
def attemptTransaction {α : Type} (env : Nat → Option StoreError)
    (body : Except AppError α) (attempt : Nat) : Except RunError α :=
  match env attempt with
  | some se => .error (.store false se)
  | none =>
    match body with
    | .ok a => .ok a
    | .error e => .error (.app false e)

/-- A bare `prisma.$transaction` call site: exactly one attempt, no retry. -/
def dollarTransaction {α : Type} (env : Nat → Option StoreError)
    (body : Except AppError α) : Except RunError α :=
  attemptTransaction env body 0

/-- The `while (true)` loop of `retryableTransaction`, fuelled by the remaining
allowed retries (`fuel = retryCount - attempts` at every call, so the fuel-exhausted
branch is unreachable from `retryableTransaction`).  Returns the outcome together with
the total backoff waited, in milliseconds. -/
def retryLoop {α : Type} (env : Nat → Option StoreError) (body : Except AppError α)
    (retryCount retryWait : Nat) :
    Nat → Nat → Nat → Except RunError α × Nat
  | fuel, attempts, waited =>
    match attemptTransaction env body attempts with
    | .ok a => (.ok a, waited)
    | .error err =>
      let attempts' := attempts + 1
      if isRetryableRunError err ∧ attempts' < retryCount then
        match fuel with
        | 0 => (.error err, waited)
        | fuel + 1 => retryLoop env body retryCount retryWait fuel attempts' (waited + retryWait)
      else
        (.error (if attempts' = retryCount then annotateRunError err else err), waited)

/-- `PrismaService.retryableTransaction` with the default options: up to 3 total
attempts, 500 ms fixed backoff, retrying only retryable errors, annotating the last
error when attempts are exhausted. -/
def retryableTransaction {α : Type} (env : Nat → Option StoreError)
    (body : Except AppError α) : Except RunError α × Nat :=
  retryLoop env body 3 500 3 0 0

/-- `credit` as actually invoked: the audits and lookups outside, the atomic unit
wrapped in `retryableTransaction` (transactions.service.ts line 105). -/
def creditRun (env : Nat → Option StoreError) (db : Db) (userId : Nat) (amount : ℚ)
    (description : Option String) (newTxnId now : Nat) : Except RunError Txn × Db :=
  if amount ≤ 0 then (.error (.app false (.badRequest "Amount must be positive")), db)
  else
    match getByUserId db 1 with
    | .error e => (.error (.app false e), db)
    | .ok serviceAccount =>
      match getByUserId db userId with
      | .error e => (.error (.app false e), db)
      | .ok userAccount =>
        match auditBalance db userAccount.id with
        | .error e => (.error (.app false e), db)
        | .ok _ =>
          match (retryableTransaction env
              (.ok (creditAtomic serviceAccount userAccount amount description
                newTxnId now db) : Except AppError (Txn × Db))).1 with
          | .error e => (.error e, db)
          | .ok (completed, db4) =>
            match auditBalance db4 userAccount.id with
            | .error e => (.error (.app false e), db4)
            | .ok _ => (.ok completed, db4)

/-- `completeImmediately` as actually invoked: one bare `$transaction`, not the retry
loop (the engine's completeImmediately body, line 70). -/
def completeImmediatelyRun (env : Nat → Option StoreError) (db : Db)
    (transactionId now : Nat) : Except RunError (Txn × Db) :=
  dollarTransaction env (completeImmediately db transactionId now)

/-- `completePayTransaction` as actually invoked: one bare `$transaction`. -/
def completePayTransactionRun (env : Nat → Option StoreError) (db : Db)
    (transactionId newTxnId newOrderId now : Nat) : Except RunError Db :=
  dollarTransaction env (completePayTransaction db transactionId newTxnId newOrderId now)

/-- `failTransaction` as actually invoked: one bare `$transaction`. -/
def failTransactionRun (env : Nat → Option StoreError) (db : Db)
    (transactionId : Nat) : Except RunError Db :=
  dollarTransaction env (failTransaction db transactionId)

/-! ## Lookup/update interaction lemmas -/

lemma findTxn_id (db : Db) (x : Nat) (t : Txn) (h : findTxn db x = some t) : t.id = x := by
  have := List.find?_some h
  simpa using this

lemma findTxn_mem (db : Db) (x : Nat) (t : Txn) (h : findTxn db x = some t) :
    t ∈ db.transactions :=
  List.mem_of_find?_eq_some h

lemma findTxn_updateTxn (db : Db) (tid x : Nat) (f : Txn → Txn)
    (hf : ∀ t, (f t).id = t.id) :
    findTxn (updateTxn db tid f) x =
      (findTxn db x).map (fun t => if t.id = tid then f t else t) := by
  unfold findTxn updateTxn
  simp only
  rw [List.find?_map]
  have hp : (fun t : Txn => decide (t.id = x)) ∘ (fun t => if t.id = tid then f t else t) =
      (fun t : Txn => decide (t.id = x)) := by
    funext t
    by_cases h : t.id = tid <;> simp [Function.comp, h, hf]
  rw [hp]

lemma findTxn_updateTxn_self (db : Db) (tid : Nat) (f : Txn → Txn)
    (hf : ∀ t, (f t).id = t.id) (t : Txn) (h : findTxn db tid = some t) :
    findTxn (updateTxn db tid f) tid = some (f t) := by
  rw [findTxn_updateTxn db tid tid f hf, h]
  simp [findTxn_id db tid t h]

lemma findTxn_updateTxn_other (db : Db) (tid x : Nat) (f : Txn → Txn)
    (hf : ∀ t, (f t).id = t.id) (hx : x ≠ tid) :
    findTxn (updateTxn db tid f) x = findTxn db x := by
  rw [findTxn_updateTxn db tid x f hf]
  cases h : findTxn db x with
  | none => rfl
  | some t =>
    have := findTxn_id db x t h
    simp [this, hx]

lemma findTxn_createTxn (db : Db) (t : Txn) (x : Nat) :
    findTxn (createTxn db t) x =
      (findTxn db x).or (if t.id = x then some t else none) := by
  unfold findTxn createTxn
  simp only
  rw [List.find?_append]
  congr 1
  by_cases h : t.id = x <;> simp [List.find?, h]

lemma findTxn_createTxn_found (db : Db) (t : Txn) (x : Nat) (u : Txn)
    (h : findTxn db x = some u) : findTxn (createTxn db t) x = some u := by
  rw [findTxn_createTxn, h]; rfl

lemma findTxn_createTxn_fresh (db : Db) (t : Txn) (h : findTxn db t.id = none) :
    findTxn (createTxn db t) t.id = some t := by
  rw [findTxn_createTxn, h]
  simp

lemma findTxn_applyComplete (t : Txn) (db : Db) (x : Nat) :
    findTxn (applyComplete t db) x = findTxn db x := rfl

lemma findTxn_updateAccount (db : Db) (aid : Nat) (f : Account → Account) (x : Nat) :
    findTxn (updateAccount db aid f) x = findTxn db x := rfl

lemma findTxn_createOrder (db : Db) (o : Order) (x : Nat) :
    findTxn (createOrder db o) x = findTxn db x := rfl

/-! ## Helper facts about `completePayTransaction` -/

lemma completePay_completed (db : Db) (tid a b now : Nat) (t : Txn)
    (ht : findTxn db tid = some t) (hc : t.state = .COMPLETED) :
    completePayTransaction db tid a b now = .ok db := by
  unfold completePayTransaction
  rw [ht]
  simp [hc]

lemma completePay_failed (db : Db) (tid a b now : Nat) (t : Txn)
    (ht : findTxn db tid = some t) (hc : t.state = .FAILED) :
    completePayTransaction db tid a b now =
      .error (.badRequest "Transaction has invalid state") := by
  unfold completePayTransaction
  rw [ht]
  simp [hc]

/-- After a successful non-short-circuited `completePayTransaction`, the refill row is
COMPLETED with the completion timestamp, and the only other change to it is its meta
annotation — all within the same atomic unit. -/
lemma completePay_ok_state (db db' : Db) (tid n1 o1 now : Nat) (t : Txn)
    (ht : findTxn db tid = some t)
    (hfresh : findTxn db n1 = none)
    (hnc : t.state ≠ .COMPLETED)
    (h1 : completePayTransaction db tid n1 o1 now = .ok db') :
    ∃ m, findTxn db' tid =
      some { t with state := .COMPLETED, completedAt := some now, meta := m } := by
  have hne : tid ≠ n1 := by
    intro h
    rw [h, hfresh] at ht
    cases ht
  have hbase : findTxn (updateTxn (applyComplete t db) tid
      (fun u => { u with state := .COMPLETED, completedAt := some now })) tid =
      some { t with state := .COMPLETED, completedAt := some now } :=
    findTxn_updateTxn_self (applyComplete t db) tid
      (fun u => { u with state := .COMPLETED, completedAt := some now })
      (fun _ => rfl) t (by rw [findTxn_applyComplete]; exact ht)
  have hid : t.id = tid := findTxn_id db tid t ht
  have hne' : n1 ≠ tid := Ne.symm hne
  unfold completePayTransaction at h1
  split at h1
  · next heq =>
    rw [ht] at heq
    cases heq
  · next refill heq =>
    rw [ht] at heq
    injection heq with heq
    subst heq
    rw [if_neg hnc] at h1
    by_cases hinv : t.state ≠ .PENDING ∧ t.state ≠ .HOLD
    · rw [if_pos hinv] at h1
      cases h1
    · rw [if_neg hinv] at h1
      simp only [] at h1
      split at h1
      · -- meta.productId = none: the refill row gets its own meta written back
        cases h1
        refine ⟨t.meta, ?_⟩
        simp [findTxn_updateTxn, findTxn_applyComplete, ht, hid]
      · -- meta.productId = some productId
        split at h1
        · cases h1
        · split at h1
          · cases h1
          · split at h1
            · cases h1
            · split at h1
              · -- partial payment branch
                split at h1
                · cases h1
                · cases h1
                  exact ⟨_, by
                    simp [findTxn_updateTxn, findTxn_createOrder, findTxn_applyComplete,
                      findTxn_createTxn, ht, hid, hne, hne']
                    rfl⟩
              · -- full card payment branch
                cases h1
                exact ⟨_, by
                  simp [findTxn_updateTxn, findTxn_createOrder, findTxn_applyComplete,
                    findTxn_createTxn, ht, hid, hne, hne']
                  rfl⟩

lemma completeImmediately_completed (db : Db) (tid now : Nat) (t : Txn)
    (ht : findTxn db tid = some t) (hc : t.state = .COMPLETED) :
    completeImmediately db tid now = .ok (t, db) := by
  unfold completeImmediately
  rw [ht]
  simp [hc]

lemma completeImmediately_failed (db : Db) (tid now : Nat) (t : Txn)
    (ht : findTxn db tid = some t) (hc : t.state = .FAILED) :
    completeImmediately db tid now = .error (.badRequest "Transaction has invalid state") := by
  unfold completeImmediately
  rw [ht]
  simp [hc]

lemma failTransaction_completed (db : Db) (tid : Nat) (t : Txn)
    (ht : findTxn db tid = some t) (hc : t.state = .COMPLETED) :
    failTransaction db tid = .error (.badRequest "Cannot fail completed transaction") := by
  unfold failTransaction
  rw [ht]
  simp [hc]

lemma failTransaction_failed (db : Db) (tid : Nat) (t : Txn)
    (ht : findTxn db tid = some t) (hc : t.state = .FAILED) :
    failTransaction db tid = .ok db := by
  unfold failTransaction
  rw [ht]
  simp [hc]

/-! ## C2: idempotence of `completePayTransaction` -/

/-- **C2.** Running `completePayTransaction` twice on the same transaction yields
exactly one application of the refill's balance effect and at most one Order: whenever
the first call succeeded, the second call finds the transaction COMPLETED and returns
the very same database (no Account, Transaction or Order row is touched). -/
theorem completePayTransaction_idempotent (db db' : Db) (tid n1 o1 n2 o2 now now2 : Nat)
    (t : Txn) (ht : findTxn db tid = some t)
    (hfresh : findTxn db n1 = none)
    (h1 : completePayTransaction db tid n1 o1 now = .ok db') :
    completePayTransaction db' tid n2 o2 now2 = .ok db' := by
  by_cases hc : t.state = .COMPLETED
  · rw [completePay_completed db tid n1 o1 now t ht hc] at h1
    injection h1 with h1
    subst h1
    exact completePay_completed db tid n2 o2 now2 t ht hc
  · obtain ⟨m, hm⟩ := completePay_ok_state db db' tid n1 o1 now t ht hfresh hc h1
    exact completePay_completed db' tid n2 o2 now2 _ hm rfl

/-- The concrete witness ledger for C2: a plain HOLD refill with no attached product. -/
def c2db : Db :=
  { users := [1, 2]
    accounts := [{ id := 1, userId := 1, balance := 0, incoming := 0, outgoing := 0 },
                 { id := 2, userId := 2, balance := 0, incoming := 0, outgoing := 0 }]
    transactions := [{ id := 1, type := .ACCOUNT_REFILL, state := .HOLD,
                       accountAId := 1, accountBId := 2, amountOut := 70, amountIn := 70 }]
    orders := []
    products := [] }

/-- The state `c2db` reaches after the first successful `completePayTransaction`. -/
def c2dbAfter : Db :=
  { users := [1, 2]
    accounts := [{ id := 1, userId := 1, balance := -70, incoming := 0, outgoing := 70 },
                 { id := 2, userId := 2, balance := 70, incoming := 70, outgoing := 0 }]
    transactions := [{ id := 1, type := .ACCOUNT_REFILL, state := .COMPLETED,
                       accountAId := 1, accountBId := 2, amountOut := 70, amountIn := 70,
                       completedAt := some 5 }]
    orders := []
    products := [] }

lemma c2_first_call : completePayTransaction c2db 1 90 91 5 = .ok c2dbAfter := by
  norm_num [completePayTransaction, findTxn, c2db, c2dbAfter, applyComplete, updateAccount,
    updateTxn, List.find?, List.map]
  decide

/-- Witness for C2: the second delivery of the webhook completion for `c2db`'s refill
returns the committed state unchanged. -/
theorem completePayTransaction_idempotent_witness :
    completePayTransaction c2dbAfter 1 92 93 6 = .ok c2dbAfter :=
  completePayTransaction_idempotent c2db c2dbAfter 1 90 91 92 93 5 6 _
    (by norm_num [findTxn, c2db, List.find?]; rfl) (by norm_num [findTxn, c2db, List.find?])
    c2_first_call

/-! ## C3: behaviour of `completePayTransaction` on terminal transactions -/

/-- The ledger for the C3 counterexample: the refill is already FAILED. -/
def c3db : Db :=
  { users := [1, 2]
    accounts := [{ id := 1, userId := 1, balance := 0, incoming := 0, outgoing := 0 },
                 { id := 2, userId := 2, balance := 0, incoming := 0, outgoing := 0 }]
    transactions := [{ id := 1, type := .ACCOUNT_REFILL, state := .FAILED,
                       accountAId := 1, accountBId := 2, amountOut := 70, amountIn := 70 }]
    orders := []
    products := [] }

/-- Counterexample to C3: on a FAILED (terminal) transaction `completePayTransaction`
raises an invalid-state error instead of returning as a silent no-op. -/
theorem completePay_on_failed_errors :
    completePayTransaction c3db 1 90 91 0 =
      .error (.badRequest "Transaction has invalid state") :=
  completePay_failed c3db 1 90 91 0 _ (by norm_num [findTxn, c3db, List.find?]; rfl) rfl

/-- **C3 (amended).** `completePayTransaction` is a silent no-op only on a COMPLETED
transaction (it returns the database unchanged); on a FAILED transaction it raises an
invalid-state error — in both cases no row is modified. -/
theorem completePay_terminal_behavior (db : Db) (tid a b now : Nat) (t : Txn)
    (ht : findTxn db tid = some t) :
    (t.state = .COMPLETED → completePayTransaction db tid a b now = .ok db) ∧
    (t.state = .FAILED →
      completePayTransaction db tid a b now =
        .error (.badRequest "Transaction has invalid state")) :=
  ⟨fun hc => completePay_completed db tid a b now t ht hc,
   fun hc => completePay_failed db tid a b now t ht hc⟩

/-- Witness for the amended C3 at the COMPLETED ledger `c2dbAfter`. -/
theorem completePay_terminal_behavior_witness :
    completePayTransaction c2dbAfter 1 94 95 7 = .ok c2dbAfter :=
  (completePay_terminal_behavior c2dbAfter 1 94 95 7 _
    (by norm_num [findTxn, c2dbAfter, List.find?]; rfl)).1 rfl

/-! ## C8: terminal states are never left -/

/-- **C8.** Once terminal, a transaction's state never changes: `failTransaction`
rejects a COMPLETED transaction and silently no-ops on a FAILED one; both completion
paths leave a COMPLETED transaction untouched and reject a FAILED one; and for every
successful `completePayTransaction` the refill row ends COMPLETED with, at most, its
`completedAt` and `meta` annotated inside the same atomic unit. -/
theorem terminal_state_never_changes (db : Db) (tid n1 o1 now : Nat) (t : Txn)
    (ht : findTxn db tid = some t)
    (hfresh : findTxn db n1 = none) :
    (t.state = .COMPLETED →
      completeImmediately db tid now = .ok (t, db) ∧
      completePayTransaction db tid n1 o1 now = .ok db ∧
      failTransaction db tid = .error (.badRequest "Cannot fail completed transaction")) ∧
    (t.state = .FAILED →
      completeImmediately db tid now = .error (.badRequest "Transaction has invalid state") ∧
      completePayTransaction db tid n1 o1 now =
        .error (.badRequest "Transaction has invalid state") ∧
      failTransaction db tid = .ok db) ∧
    (∀ db', completePayTransaction db tid n1 o1 now = .ok db' →
      ∃ m c, findTxn db' tid =
        some { t with state := .COMPLETED, completedAt := c, meta := m }) := by
  refine ⟨fun hc => ⟨completeImmediately_completed db tid now t ht hc,
      completePay_completed db tid n1 o1 now t ht hc,
      failTransaction_completed db tid t ht hc⟩,
    fun hc => ⟨completeImmediately_failed db tid now t ht hc,
      completePay_failed db tid n1 o1 now t ht hc,
      failTransaction_failed db tid t ht hc⟩,
    fun db' h1 => ?_⟩
  by_cases hc : t.state = .COMPLETED
  · rw [completePay_completed db tid n1 o1 now t ht hc] at h1
    injection h1 with h1
    subst h1
    refine ⟨t.meta, t.completedAt, ?_⟩
    rw [ht]
    cases t
    simp_all
  · obtain ⟨m, hm⟩ := completePay_ok_state db db' tid n1 o1 now t ht hfresh hc h1
    exact ⟨m, some now, hm⟩

/-- Witness for C8 at the FAILED ledger `c3db`. -/
theorem terminal_state_never_changes_witness :
    completeImmediately c3db 1 3 = .error (.badRequest "Transaction has invalid state") ∧
      failTransaction c3db 1 = .ok c3db := by
  have h := (terminal_state_never_changes c3db 1 96 97 3 _
    (by norm_num [findTxn, c3db, List.find?]; rfl)
    (by norm_num [findTxn, c3db, List.find?])).2.1 rfl
  exact ⟨h.1, h.2.2⟩

/-! ## C4: which balance does `purchaseWithBalance` check? -/

/-- Ledger for the C4 counterexample: the cached balance (100) is far above the price,
but the transaction history is empty, so the history-derived balance is 0. -/
def c4db : Db :=
  { users := [1, 2]
    accounts := [{ id := 1, userId := 1, balance := 0, incoming := 0, outgoing := 0 },
                 { id := 2, userId := 2, balance := 100, incoming := 0, outgoing := 0 }]
    transactions := []
    orders := []
    products := [{ id := 10, price := 50, active := true }] }

/-- Counterexample to C4: `purchaseWithBalance` succeeds although
`calculateBalanceFromHistory` gives 0 < price — the check uses the cached
`Account.balance`, not the history. -/
theorem purchase_checks_cached_not_history :
    (purchaseWithBalance c4db 2 10 100 200 0).1 =
      .ok { id := 200, productId := 10, buyerUserId := 2, sellerUserId := 1,
            totalPrice := 50, status := .PAID } ∧
      calculateBalanceFromHistory c4db 2 = .ok 0 ∧ ((0 : ℚ) < 50) := by
  refine ⟨?_, ?_, by norm_num⟩ <;>
    norm_num [purchaseWithBalance, findProductById, findProduct, getByUserId,
      findAccountByUserId, findUserById, initiateTransfer, createTxn, findTxn,
      updateAccount, updateTxn, createOrder, calculateBalanceFromHistory, getById,
      findAccountById, c4db, List.find?, List.filter]

/-- **C4 (amended).** `purchaseWithBalance` verifies sufficiency against the cached
`Account.balance`; when that cached balance is below the product price it fails with
the insufficient-balance error and returns the database unchanged (no mutation). -/
theorem purchaseWithBalance_insufficient (db : Db) (userId productId i o now : Nat)
    (product : Product) (userAccount : Account)
    (hp : findProductById db productId = .ok product)
    (ha : product.active = true)
    (hu : getByUserId db userId = .ok userAccount)
    (hb : userAccount.balance < product.price) :
    purchaseWithBalance db userId productId i o now =
      (.error (.badRequest "Insufficient balance"), db) := by
  unfold purchaseWithBalance
  rw [hp, hu]
  simp [ha, hb]

/-- Ledger for the C4 witness: cached balance 10 below the price 50. -/
def c4db2 : Db :=
  { users := [1, 2]
    accounts := [{ id := 1, userId := 1, balance := 0, incoming := 0, outgoing := 0 },
                 { id := 2, userId := 2, balance := 10, incoming := 0, outgoing := 0 }]
    transactions := []
    orders := []
    products := [{ id := 10, price := 50, active := true }] }

/-- Witness for the amended C4 at `c4db2`. -/
theorem purchaseWithBalance_insufficient_witness :
    purchaseWithBalance c4db2 2 10 100 200 0 =
      (.error (.badRequest "Insufficient balance"), c4db2) :=
  purchaseWithBalance_insufficient c4db2 2 10 100 200 0 _ _
    (by norm_num [findProductById, findProduct, c4db2, List.find?]; rfl) rfl
    (by norm_num [getByUserId, findAccountByUserId, c4db2, List.find?]; rfl)
    (by norm_num)

/-! ## C5: are audit failures internal-only? -/

/-- Ledger for the C5 counterexample: the cached balance 100 disagrees with the empty
history (0) by far more than the 0.01 tolerance. -/
def c5db : Db :=
  { users := [1, 2]
    accounts := [{ id := 1, userId := 1, balance := 0, incoming := 0, outgoing := 0 },
                 { id := 2, userId := 2, balance := 100, incoming := 0, outgoing := 0 }]
    transactions := []
    orders := []
    products := [] }

/-- Counterexample to C5: a balance-audit mismatch makes the caller-triggered `credit`
request itself fail with an internal error — the pre-transaction `auditBalance` is
awaited with no try/catch. -/
theorem audit_mismatch_fails_credit :
    (credit c5db 2 50 none 100 0).1 = .error (.internalError "Balance audit failed") := by
  norm_num [credit, getByUserId, findAccountByUserId, auditBalance, getById,
    findAccountById, calculateBalanceFromHistory, c5db, List.find?, List.filter,
    List.foldl]

/-- **C5 (amended).** Only the asynchronous audit listener swallows audit failures
(try/catch, log-only); the synchronous audits inside `credit` (and `debit`) propagate:
an audit mismatch above the 0.01 tolerance fails the triggering request with an
internal error (before any mutation, when the pre-audit fires). -/
theorem audit_failure_propagation :
    (∀ (db : Db) (accountId : Nat), handleTransactionCompleted db accountId = .ok ()) ∧
    (∀ (db : Db) (userId : Nat) (amount : ℚ) (d : Option String) (i now : Nat)
       (sAcct uAcct : Account) (c : ℚ),
      0 < amount →
      getByUserId db 1 = .ok sAcct →
      getByUserId db userId = .ok uAcct →
      getById db uAcct.id = .ok uAcct →
      calculateBalanceFromHistory db uAcct.id = .ok c →
      |uAcct.balance - c| > 1 / 100 →
      credit db userId amount d i now =
        (.error (.internalError "Balance audit failed"), db)) := by
  constructor
  · intro db accountId
    unfold handleTransactionCompleted
    cases auditBalance db accountId <;> rfl
  · intro db userId amount d i now sAcct uAcct c hamt hs hu hg hc hdiff
    have haud : auditBalance db uAcct.id = .error (.internalError "Balance audit failed") := by
      have hdiff2 : (100 : ℚ)⁻¹ < |uAcct.balance - c| := by simpa [one_div] using hdiff
      unfold auditBalance
      rw [hg, hc]
      simp [hdiff2]
    unfold credit
    rw [if_neg (not_le.mpr hamt), hs, hu]
    simp [haud]

/-- Witness for the amended C5 at `c5db`. -/
theorem audit_failure_propagation_witness :
    credit c5db 2 50 none 100 0 =
      (.error (.internalError "Balance audit failed"), c5db) :=
  audit_failure_propagation.2 c5db 2 50 none 100 0 _ _ 0
    (by norm_num)
    (by norm_num [getByUserId, findAccountByUserId, c5db, List.find?]; rfl)
    (by norm_num [getByUserId, findAccountByUserId, c5db, List.find?]; rfl)
    (by norm_num [getById, findAccountById, c5db, List.find?])
    (by norm_num [calculateBalanceFromHistory, getById, findAccountById, c5db,
      List.find?, List.filter])
    (by norm_num)

/-! ## C9: `applyComplete` and `applyReverse` are mutually inverse -/

/-- **C9.** `applyComplete` debits the source account (balance − amountOut,
outgoing + amountOut) and credits the destination (balance + amountIn,
incoming + amountIn); `applyReverse` is its exact inverse, so the composition restores
every account's balance, incoming and outgoing fields. -/
theorem applyComplete_applyReverse_inverse (t : Txn) (db : Db) :
    (t.accountAId ≠ t.accountBId →
      ∀ a ∈ db.accounts,
        (a.id = t.accountAId →
          { a with balance := a.balance - t.amountOut,
                   outgoing := a.outgoing + t.amountOut } ∈ (applyComplete t db).accounts) ∧
        (a.id = t.accountBId →
          { a with balance := a.balance + t.amountIn,
                   incoming := a.incoming + t.amountIn } ∈ (applyComplete t db).accounts)) ∧
    applyReverse t (applyComplete t db) = db := by
  constructor
  · intro hAB a ha
    have h1 := List.mem_map_of_mem
      (fun x : Account => if x.id = t.accountAId then
        { x with balance := x.balance - t.amountOut,
                 outgoing := x.outgoing + t.amountOut } else x) ha
    have h2 := List.mem_map_of_mem
      (fun x : Account => if x.id = t.accountBId then
        { x with balance := x.balance + t.amountIn,
                 incoming := x.incoming + t.amountIn } else x) h1
    constructor
    · intro hA
      have himg : (fun x : Account => if x.id = t.accountBId then
            { x with balance := x.balance + t.amountIn,
                     incoming := x.incoming + t.amountIn } else x)
          ((fun x : Account => if x.id = t.accountAId then
            { x with balance := x.balance - t.amountOut,
                     outgoing := x.outgoing + t.amountOut } else x) a) =
          { a with balance := a.balance - t.amountOut,
                   outgoing := a.outgoing + t.amountOut } := by
        simp [hA, hAB]
      unfold applyComplete updateAccount
      exact himg ▸ h2
    · intro hB
      have hBA : ¬(a.id = t.accountAId) := by rw [hB]; exact Ne.symm hAB
      have himg : (fun x : Account => if x.id = t.accountBId then
            { x with balance := x.balance + t.amountIn,
                     incoming := x.incoming + t.amountIn } else x)
          ((fun x : Account => if x.id = t.accountAId then
            { x with balance := x.balance - t.amountOut,
                     outgoing := x.outgoing + t.amountOut } else x) a) =
          { a with balance := a.balance + t.amountIn,
                   incoming := a.incoming + t.amountIn } := by
        simp [hB, Ne.symm hAB]
      unfold applyComplete updateAccount
      exact himg ▸ h2
  · unfold applyReverse applyComplete updateAccount
    simp only [List.map_map]
    have hpt : ∀ a : Account, a ∈ db.accounts →
        ((fun x : Account => if x.id = t.accountBId then
            { x with balance := x.balance - t.amountIn,
                     incoming := x.incoming - t.amountIn } else x) ∘
         (fun x : Account => if x.id = t.accountAId then
            { x with balance := x.balance + t.amountOut,
                     outgoing := x.outgoing - t.amountOut } else x) ∘
         (fun x : Account => if x.id = t.accountBId then
            { x with balance := x.balance + t.amountIn,
                     incoming := x.incoming + t.amountIn } else x) ∘
         (fun x : Account => if x.id = t.accountAId then
            { x with balance := x.balance - t.amountOut,
                     outgoing := x.outgoing + t.amountOut } else x)) a = a := by
      intro a _
      by_cases hA : a.id = t.accountAId <;> by_cases hB : a.id = t.accountBId <;>
        cases a <;>
        simp_all [Function.comp] <;> and_intros <;> ring
    rw [List.map_congr_left hpt, List.map_id']

/-- Witness for C9: a concrete 70-unit transfer on `c2db` round-trips to `c2db`. -/
theorem applyComplete_applyReverse_inverse_witness :
    applyReverse { id := 1, type := .ACCOUNT_REFILL, state := .HOLD, accountAId := 1,
                   accountBId := 2, amountOut := 70, amountIn := 70 }
        (applyComplete { id := 1, type := .ACCOUNT_REFILL, state := .HOLD,
                         accountAId := 1, accountBId := 2,
                         amountOut := 70, amountIn := 70 } c2db) = c2db :=
  (applyComplete_applyReverse_inverse _ c2db).2

/-! ## C6: which calls run inside the retry loop -/

/-- A retryable store error: PostgreSQL deadlock. -/
def deadlockError : StoreError := { code := "40P01", message := "deadlock detected" }

/-- An environment with a single transient failure on the first attempt. -/
def envDeadlockOnce : Nat → Option StoreError :=
  fun k => if k = 0 then some deadlockError else none

lemma retryableTransaction_transient_ok {α : Type} (env : Nat → Option StoreError)
    (se : StoreError) (h0 : env 0 = some se)
    (hr : isRetryableError se.code se.message = true) (h1 : env 1 = none) (x : α) :
    retryableTransaction env (.ok x : Except AppError α) = (.ok x, 500) := by
  unfold retryableTransaction retryLoop
  unfold attemptTransaction
  rw [h0]
  simp only [isRetryableRunError, hr]
  norm_num
  unfold retryLoop attemptTransaction
  rw [h1]

lemma retryableTransaction_ok_none {α : Type} (x : α) :
    retryableTransaction (fun _ => none) (.ok x : Except AppError α) = (.ok x, 0) := by
  unfold retryableTransaction retryLoop attemptTransaction
  rfl

/-- Counterexample to C6: `completeImmediately` is invoked through a bare
`$transaction`, so a single transient deadlock — an error the retry policy is supposed
to absorb — surfaces to the caller, while the very same atomic unit run under
`retryableTransaction` succeeds after one 500 ms backoff. -/
theorem completeImmediately_not_retried :
    completeImmediatelyRun envDeadlockOnce c2db 1 5 = .error (.store false deadlockError) ∧
    isRetryableError deadlockError.code deadlockError.message = true ∧
    retryableTransaction envDeadlockOnce (completeImmediately c2db 1 5) =
      (.ok ({ id := 1, type := .ACCOUNT_REFILL, state := .COMPLETED, accountAId := 1,
              accountBId := 2, amountOut := 70, amountIn := 70, completedAt := some 5 },
            c2dbAfter), 500) := by
  have hretry : isRetryableError deadlockError.code deadlockError.message = true := by
    decide
  have hbody : completeImmediately c2db 1 5 =
      .ok ({ id := 1, type := .ACCOUNT_REFILL, state := .COMPLETED, accountAId := 1,
             accountBId := 2, amountOut := 70, amountIn := 70, completedAt := some 5 },
           c2dbAfter) := by
    norm_num [completeImmediately, findTxn, c2db, c2dbAfter, applyComplete, updateAccount,
      updateTxn, List.find?]
    decide
  refine ⟨rfl, hretry, ?_⟩
  rw [hbody]
  exact retryableTransaction_transient_ok envDeadlockOnce deadlockError rfl hretry rfl _

/-- **C6 (amended).** Only `credit`/`debit` wrap their atomic unit in the bounded retry
loop; the loop itself makes up to 3 total attempts with a fixed 500 ms backoff, retries
only store-level conflict/deadlock/serialization/transient-connection errors,
propagates everything else immediately, and annotates the last error when attempts are
exhausted.  `completeImmediately`, `completePayTransaction` and `failTransaction` run a
single `$transaction` attempt, surfacing even retryable errors at once. -/
theorem retry_policy_behavior :
    (∀ {α : Type} (env : Nat → Option StoreError) (body : Except AppError α),
      env 0 = none → retryableTransaction env body = (body.mapError (.app false), 0)) ∧
    (∀ {α : Type} (env : Nat → Option StoreError) (body : Except AppError α)
       (se : StoreError), env 0 = some se →
      isRetryableError se.code se.message = false →
      retryableTransaction env body = (.error (.store false se), 0)) ∧
    (∀ {α : Type} (env : Nat → Option StoreError) (body : Except AppError α)
       (se : StoreError), env 0 = some se →
      isRetryableError se.code se.message = true → env 1 = none →
      retryableTransaction env body = (body.mapError (.app false), 500)) ∧
    (∀ {α : Type} (env : Nat → Option StoreError) (body : Except AppError α)
       (se0 se1 se2 : StoreError),
      env 0 = some se0 → env 1 = some se1 → env 2 = some se2 →
      isRetryableError se0.code se0.message = true →
      isRetryableError se1.code se1.message = true →
      isRetryableError se2.code se2.message = true →
      retryableTransaction env body = (.error (.store true se2), 1000)) ∧
    (∀ (env : Nat → Option StoreError) (db : Db) (tid now : Nat) (se : StoreError),
      env 0 = some se →
      completeImmediatelyRun env db tid now = .error (.store false se)) ∧
    (∀ (env : Nat → Option StoreError) (db : Db) (tid a b now : Nat) (se : StoreError),
      env 0 = some se →
      completePayTransactionRun env db tid a b now = .error (.store false se)) ∧
    (∀ (env : Nat → Option StoreError) (db : Db) (tid : Nat) (se : StoreError),
      env 0 = some se →
      failTransactionRun env db tid = .error (.store false se)) ∧
    (∀ (env : Nat → Option StoreError) (se : StoreError) (db : Db) (userId : Nat)
       (amount : ℚ) (d : Option String) (i now : Nat),
      env 0 = some se → isRetryableError se.code se.message = true → env 1 = none →
      creditRun env db userId amount d i now =
        creditRun (fun _ => none) db userId amount d i now) := by
  refine ⟨?_, ?_, ?_, ?_, ?_, ?_, ?_, ?_⟩
  · intro α env body h0
    unfold retryableTransaction retryLoop attemptTransaction
    rw [h0]
    cases body <;> simp [isRetryableRunError, Except.mapError]
  · intro α env body se h0 hr
    unfold retryableTransaction retryLoop attemptTransaction
    rw [h0]
    simp [isRetryableRunError, hr]
  · intro α env body se h0 hr h1
    unfold retryableTransaction retryLoop
    unfold attemptTransaction
    rw [h0]
    simp only [isRetryableRunError, hr]
    norm_num
    unfold retryLoop attemptTransaction
    rw [h1]
    cases body <;> simp [isRetryableRunError, Except.mapError]
  · intro α env body se0 se1 se2 h0 h1 h2 hr0 hr1 hr2
    unfold retryableTransaction retryLoop
    unfold attemptTransaction
    rw [h0]
    simp only [isRetryableRunError, hr0]
    norm_num
    unfold retryLoop
    unfold attemptTransaction
    rw [h1]
    simp only [isRetryableRunError, hr1]
    norm_num
    unfold retryLoop
    unfold attemptTransaction
    rw [h2]
    simp [isRetryableRunError, hr2, annotateRunError]
  · intro env db tid now se h0
    unfold completeImmediatelyRun dollarTransaction attemptTransaction
    rw [h0]
  · intro env db tid a b now se h0
    unfold completePayTransactionRun dollarTransaction attemptTransaction
    rw [h0]
  · intro env db tid se h0
    unfold failTransactionRun dollarTransaction attemptTransaction
    rw [h0]
  · intro env se db userId amount d i now h0 hr h1
    unfold creditRun
    simp only [retryableTransaction_transient_ok env se h0 hr h1,
      retryableTransaction_ok_none]

/-- Witness for the amended C6: a deadlock on the first attempt followed by a clean
second attempt yields the body's result after one 500 ms backoff. -/
theorem retry_policy_behavior_witness :
    retryableTransaction envDeadlockOnce (.ok 42 : Except AppError Nat) = (.ok 42, 500) := by
  have h := retry_policy_behavior.2.2.1 envDeadlockOnce (.ok 42 : Except AppError Nat)
    deadlockError rfl (by decide) rfl
  simpa [Except.mapError] using h

/-! ## C10: every created transfer is zero-sum -/

/-- Sum of cached balances over all accounts, the service account included. -/
def totalBalance (db : Db) : ℚ := (db.accounts.map (fun a => a.balance)).sum

/-- Sum of `incoming − outgoing` over all accounts. -/
def totalNet (db : Db) : ℚ := (db.accounts.map (fun a => a.incoming - a.outgoing)).sum

/-- The list of account primary keys. -/
def accountIds (db : Db) : List Nat := db.accounts.map (fun a => a.id)

/-- Every transaction row records a conserved transfer: `amountIn = amountOut`. -/
def EqualAmounts (db : Db) : Prop := ∀ t ∈ db.transactions, t.amountIn = t.amountOut

/-- Every transaction's two account references exist (the FK constraints). -/
def TxnAccountsExist (db : Db) : Prop :=
  ∀ t ∈ db.transactions, t.accountAId ∈ accountIds db ∧ t.accountBId ∈ accountIds db

lemma sum_map_delta (l : List Account) (g : Account → Account) (φ : Account → ℚ) :
    ((l.map g).map φ).sum = (l.map φ).sum + (l.map (fun a => φ (g a) - φ a)).sum := by
  induction l with
  | nil => simp
  | cons a l ih =>
    simp only [List.map_cons, List.sum_cons, ih]
    ring

lemma sum_map_ite (l : List Account) (p : Account → Bool) (x : ℚ) :
    (l.map (fun a => if p a then x else 0)).sum = (l.countP p : ℚ) * x := by
  induction l with
  | nil => simp
  | cons a l ih =>
    by_cases h : p a = true <;>
      simp only [List.map_cons, List.sum_cons, List.countP_cons, h, if_true, if_false,
        ite_true, ite_false, ih] <;>
      push_cast <;> ring

lemma countP_eq_zero_of_not_mem_ids (l : List Account) (x : Nat)
    (hx : x ∉ l.map (fun a => a.id)) :
    l.countP (fun a => decide (a.id = x)) = 0 := by
  rw [List.countP_eq_zero]
  intro a ha
  simp only [decide_eq_true_eq]
  intro h
  exact hx (h ▸ List.mem_map_of_mem (fun a => a.id) ha)

lemma countP_id_eq_one (l : List Account) (hnd : (l.map (fun a => a.id)).Nodup)
    (x : Nat) (hx : x ∈ l.map (fun a => a.id)) :
    l.countP (fun a => decide (a.id = x)) = 1 := by
  induction l with
  | nil => simp at hx
  | cons c l ih =>
    simp only [List.map_cons, List.nodup_cons] at hnd
    rcases List.mem_cons.mp hx with h | h
    · rw [List.countP_cons]
      have h0 : l.countP (fun a => decide (a.id = x)) = 0 :=
        countP_eq_zero_of_not_mem_ids l x (h ▸ hnd.1)
      simp [h0, h.symm]
    · have hcx : ¬(c.id = x) := by
        intro hc
        exact hnd.1 (hc ▸ h)
      rw [List.countP_cons]
      simp [hcx, ih hnd.2 h]

lemma countP_id_map_pres (l : List Account) (g : Account → Account)
    (hg : ∀ a, (g a).id = a.id) (p : Nat → Bool) :
    (l.map g).countP (fun a => p a.id) = l.countP (fun a => p a.id) := by
  induction l with
  | nil => rfl
  | cons a l ih =>
    simp only [List.map_cons, List.countP_cons, hg, ih]

lemma ids_map_pres (l : List Account) (g : Account → Account)
    (hg : ∀ a, (g a).id = a.id) :
    (l.map g).map (fun a => a.id) = l.map (fun a => a.id) := by
  simp only [List.map_map]
  exact List.map_congr_left (fun a _ => hg a)

/-- The zero-sum core: applying a debit-like update to the (unique) row with id `A`
and a credit-like update to the row with id `B` leaves the φ-sum unchanged whenever
the two pointwise deltas cancel. -/
lemma sum_two_updates (l : List Account) (A B : Nat) (dA dB : ℚ) (φ : Account → ℚ)
    (f1 f2 : Account → Account)
    (hid1 : ∀ a, (f1 a).id = a.id)
    (hd1 : ∀ a, φ (f1 a) - φ a = dA)
    (hd2 : ∀ a, φ (f2 a) - φ a = dB)
    (hnd : (l.map (fun a => a.id)).Nodup)
    (hA : A ∈ l.map (fun a => a.id)) (hB : B ∈ l.map (fun a => a.id))
    (hsum : dA + dB = 0) :
    (((l.map (fun a => if a.id = A then f1 a else a)).map
        (fun a => if a.id = B then f2 a else a)).map φ).sum = (l.map φ).sum := by
  set h1 : Account → Account := fun a => if a.id = A then f1 a else a with hh1
  have hid1' : ∀ a, (h1 a).id = a.id := by
    intro a
    by_cases h : a.id = A <;> simp [hh1, h, hid1]
  rw [sum_map_delta (l.map h1) _ φ, sum_map_delta l h1 φ]
  have e1 : l.map (fun a => φ (h1 a) - φ a) =
      l.map (fun a => if (fun a : Account => decide (a.id = A)) a then dA else 0) := by
    apply List.map_congr_left
    intro a _
    by_cases h : a.id = A <;> simp [hh1, h, hd1]
  have e2 : (l.map h1).map (fun a => φ (if a.id = B then f2 a else a) - φ a) =
      (l.map h1).map (fun a => if (fun a : Account => decide (a.id = B)) a then dB else 0) := by
    apply List.map_congr_left
    intro a _
    by_cases h : a.id = B <;> simp [h, hd2]
  rw [e1, e2, sum_map_ite, sum_map_ite]
  have c1 : l.countP (fun a => decide (a.id = A)) = 1 := countP_id_eq_one l hnd A hA
  have c2 : (l.map h1).countP (fun a => decide (a.id = B)) = 1 := by
    rw [countP_id_map_pres l h1 hid1' (fun n => decide (n = B))]
    exact countP_id_eq_one l hnd B hB
  rw [c1, c2]
  push_cast
  linarith [hsum]

lemma equalAmounts_createTxn (db : Db) (t : Txn) (h : EqualAmounts db)
    (ht : t.amountIn = t.amountOut) : EqualAmounts (createTxn db t) := by
  intro u hu
  rcases List.mem_append.mp hu with h1 | h1
  · exact h u h1
  · rw [List.mem_singleton.mp h1]
    exact ht

lemma equalAmounts_updateTxn (db : Db) (tid : Nat) (f : Txn → Txn)
    (hf : ∀ t, (f t).amountIn = t.amountIn ∧ (f t).amountOut = t.amountOut)
    (h : EqualAmounts db) : EqualAmounts (updateTxn db tid f) := by
  intro u hu
  rcases List.mem_map.mp hu with ⟨v, hv, hveq⟩
  subst hveq
  by_cases hid : v.id = tid <;> simp only [hid, if_true, if_false, ite_true, ite_false]
  · rw [(hf v).1, (hf v).2]
    exact h v hv
  · exact h v hv

lemma conservation_applyComplete (t : Txn) (db : Db)
    (hnd : (accountIds db).Nodup)
    (hA : t.accountAId ∈ accountIds db) (hB : t.accountBId ∈ accountIds db)
    (hx : t.amountIn = t.amountOut) :
    totalBalance (applyComplete t db) = totalBalance db ∧
    totalNet (applyComplete t db) = totalNet db := by
  constructor
  · exact sum_two_updates db.accounts t.accountAId t.accountBId (-t.amountOut) t.amountIn
      (fun a => a.balance)
      (fun a => { a with balance := a.balance - t.amountOut,
                         outgoing := a.outgoing + t.amountOut })
      (fun a => { a with balance := a.balance + t.amountIn,
                         incoming := a.incoming + t.amountIn })
      (fun _ => rfl)
      (fun a => show a.balance - t.amountOut - a.balance = -t.amountOut by ring)
      (fun a => show a.balance + t.amountIn - a.balance = t.amountIn by ring)
      hnd hA hB (by rw [hx]; ring)
  · exact sum_two_updates db.accounts t.accountAId t.accountBId (-t.amountOut) t.amountIn
      (fun a => a.incoming - a.outgoing)
      (fun a => { a with balance := a.balance - t.amountOut,
                         outgoing := a.outgoing + t.amountOut })
      (fun a => { a with balance := a.balance + t.amountIn,
                         incoming := a.incoming + t.amountIn })
      (fun _ => rfl)
      (fun a => show a.incoming - (a.outgoing + t.amountOut) - (a.incoming - a.outgoing) =
        -t.amountOut by ring)
      (fun a => show a.incoming + t.amountIn - a.outgoing - (a.incoming - a.outgoing) =
        t.amountIn by ring)
      hnd hA hB (by rw [hx]; ring)

lemma conservation_creditAtomic (s u : Account) (amount : ℚ) (d : Option String)
    (i now : Nat) (db : Db) (hnd : (accountIds db).Nodup)
    (hs : s.id ∈ accountIds db) (hu : u.id ∈ accountIds db) (hEq : EqualAmounts db) :
    totalBalance (creditAtomic s u amount d i now db).2 = totalBalance db ∧
    totalNet (creditAtomic s u amount d i now db).2 = totalNet db ∧
    EqualAmounts (creditAtomic s u amount d i now db).2 := by
  refine ⟨?_, ?_, ?_⟩
  · exact sum_two_updates db.accounts s.id u.id (-amount) amount
      (fun a => a.balance)
      (fun a => { a with balance := a.balance - amount, outgoing := a.outgoing + amount })
      (fun a => { a with balance := a.balance + amount, incoming := a.incoming + amount })
      (fun _ => rfl)
      (fun a => show a.balance - amount - a.balance = -amount by ring)
      (fun a => show a.balance + amount - a.balance = amount by ring)
      hnd hs hu (by ring)
  · exact sum_two_updates db.accounts s.id u.id (-amount) amount
      (fun a => a.incoming - a.outgoing)
      (fun a => { a with balance := a.balance - amount, outgoing := a.outgoing + amount })
      (fun a => { a with balance := a.balance + amount, incoming := a.incoming + amount })
      (fun _ => rfl)
      (fun a => show a.incoming - (a.outgoing + amount) - (a.incoming - a.outgoing) =
        -amount by ring)
      (fun a => show a.incoming + amount - a.outgoing - (a.incoming - a.outgoing) =
        amount by ring)
      hnd hs hu (by ring)
  · exact equalAmounts_updateTxn _ i
      (fun t => { t with state := .COMPLETED, completedAt := some now })
      (fun _ => ⟨rfl, rfl⟩)
      (equalAmounts_createTxn db _ hEq rfl)

lemma getByUserId_mem (db : Db) (uid : Nat) (a : Account)
    (h : getByUserId db uid = .ok a) : a.id ∈ accountIds db := by
  unfold getByUserId at h
  cases hf : findAccountByUserId db uid with
  | none => rw [hf] at h; cases h
  | some b =>
    rw [hf] at h
    injection h with h
    subst h
    exact List.mem_map_of_mem (fun a => a.id) (List.mem_of_find?_eq_some hf)

lemma findAccountByUserId_mem (db : Db) (uid : Nat) (a : Account)
    (h : findAccountByUserId db uid = some a) : a.id ∈ accountIds db :=
  List.mem_map_of_mem (fun a => a.id) (List.mem_of_find?_eq_some h)

lemma conservation_credit (db : Db) (userId : Nat) (amount : ℚ) (d : Option String)
    (i now : Nat) (hnd : (accountIds db).Nodup) (hEq : EqualAmounts db) :
    totalBalance (credit db userId amount d i now).2 = totalBalance db ∧
    totalNet (credit db userId amount d i now).2 = totalNet db ∧
    EqualAmounts (credit db userId amount d i now).2 := by
  unfold credit
  split
  · exact ⟨rfl, rfl, hEq⟩
  · split
    · exact ⟨rfl, rfl, hEq⟩
    · rename_i s hs
      split
      · exact ⟨rfl, rfl, hEq⟩
      · rename_i u hu
        split
        · exact ⟨rfl, rfl, hEq⟩
        · have hc := conservation_creditAtomic s u amount d i now db hnd
            (getByUserId_mem db 1 s hs) (getByUserId_mem db userId u hu) hEq
          split
          rename_i completed db4 hatomic
          rw [hatomic] at hc
          split
          · exact hc
          · exact hc

lemma accountIds_updateAccount (db : Db) (aid : Nat) (f : Account → Account)
    (hf : ∀ a, (f a).id = a.id) : accountIds (updateAccount db aid f) = accountIds db := by
  unfold accountIds updateAccount
  simp only [List.map_map]
  apply List.map_congr_left
  intro a _
  by_cases h : a.id = aid <;> simp [Function.comp, h, hf]

lemma accountIds_applyComplete (t : Txn) (db : Db) :
    accountIds (applyComplete t db) = accountIds db := by
  show accountIds (updateAccount (updateAccount db t.accountAId
      (fun a => { a with balance := a.balance - t.amountOut,
                         outgoing := a.outgoing + t.amountOut })) t.accountBId
      (fun a => { a with balance := a.balance + t.amountIn,
                         incoming := a.incoming + t.amountIn })) = accountIds db
  rw [accountIds_updateAccount _ _
      (fun a => { a with balance := a.balance + t.amountIn,
                         incoming := a.incoming + t.amountIn }) (fun _ => rfl),
    accountIds_updateAccount _ _
      (fun a => { a with balance := a.balance - t.amountOut,
                         outgoing := a.outgoing + t.amountOut }) (fun _ => rfl)]

/-- Moving `x` units from the row with id `A` to the row with id `B` preserves both the
balance sum and the incoming−outgoing sum. -/
lemma conservation_moveFunds (db : Db) (A B : Nat) (x : ℚ)
    (hnd : (accountIds db).Nodup)
    (hA : A ∈ accountIds db) (hB : B ∈ accountIds db) :
    totalBalance (updateAccount (updateAccount db A
        (fun a => { a with balance := a.balance - x, outgoing := a.outgoing + x })) B
        (fun a => { a with balance := a.balance + x, incoming := a.incoming + x })) =
      totalBalance db ∧
    totalNet (updateAccount (updateAccount db A
        (fun a => { a with balance := a.balance - x, outgoing := a.outgoing + x })) B
        (fun a => { a with balance := a.balance + x, incoming := a.incoming + x })) =
      totalNet db := by
  constructor
  · exact sum_two_updates db.accounts A B (-x) x (fun a => a.balance)
      (fun a => { a with balance := a.balance - x, outgoing := a.outgoing + x })
      (fun a => { a with balance := a.balance + x, incoming := a.incoming + x })
      (fun _ => rfl)
      (fun a => show a.balance - x - a.balance = -x by ring)
      (fun a => show a.balance + x - a.balance = x by ring)
      hnd hA hB (by ring)
  · exact sum_two_updates db.accounts A B (-x) x (fun a => a.incoming - a.outgoing)
      (fun a => { a with balance := a.balance - x, outgoing := a.outgoing + x })
      (fun a => { a with balance := a.balance + x, incoming := a.incoming + x })
      (fun _ => rfl)
      (fun a => show a.incoming - (a.outgoing + x) - (a.incoming - a.outgoing) = -x by ring)
      (fun a => show a.incoming + x - a.outgoing - (a.incoming - a.outgoing) = x by ring)
      hnd hA hB (by ring)

lemma conservation_initiateTransfer (db : Db) (A B : Nat) (amount : ℚ)
    (ty : TransactionType) (m : TxnMeta) (i : Nat) (t : Txn) (db1 : Db)
    (h : initiateTransfer db A B amount ty m i = .ok (t, db1)) :
    t.amountIn = t.amountOut ∧ totalBalance db1 = totalBalance db ∧
    totalNet db1 = totalNet db ∧ accountIds db1 = accountIds db ∧
    (EqualAmounts db → EqualAmounts db1) := by
  unfold initiateTransfer at h
  split at h
  · cases h
  · split at h
    · cases h
    · cases h
      exact ⟨rfl, rfl, rfl, rfl, fun hEq => equalAmounts_createTxn db _ hEq rfl⟩

lemma conservation_failTransaction (db : Db) (tid : Nat) (db2 : Db)
    (hEq : EqualAmounts db) (h : failTransaction db tid = .ok db2) :
    totalBalance db2 = totalBalance db ∧ totalNet db2 = totalNet db ∧
    EqualAmounts db2 := by
  unfold failTransaction at h
  split at h
  · cases h
  · split at h
    · cases h
      exact ⟨rfl, rfl, hEq⟩
    · split at h
      · cases h
      · cases h
        exact ⟨rfl, rfl,
          equalAmounts_updateTxn db tid (fun t => { t with state := .FAILED })
            (fun _ => ⟨rfl, rfl⟩) hEq⟩

lemma conservation_completeImmediately (db : Db) (tid now : Nat) (r : Txn) (db2 : Db)
    (hnd : (accountIds db).Nodup) (hFK : TxnAccountsExist db) (hEq : EqualAmounts db)
    (h : completeImmediately db tid now = .ok (r, db2)) :
    totalBalance db2 = totalBalance db ∧ totalNet db2 = totalNet db ∧
    EqualAmounts db2 := by
  unfold completeImmediately at h
  split at h
  · cases h
  · rename_i t ht
    split at h
    · cases h
      exact ⟨rfl, rfl, hEq⟩
    · split at h
      · cases h
      · cases h
        have hmem := findTxn_mem db tid t ht
        have hFKt := hFK t hmem
        have hac := conservation_applyComplete t db hnd hFKt.1 hFKt.2 (hEq t hmem)
        exact ⟨hac.1, hac.2,
          equalAmounts_updateTxn (applyComplete t db) tid _ (fun _ => ⟨rfl, rfl⟩) hEq⟩

lemma conservation_debitAtomic (s u : Account) (userId : Nat) (amount : ℚ)
    (pid : Option Nat) (d : Option String) (i o now : Nat) (db : Db)
    (hnd : (accountIds db).Nodup)
    (hs : s.id ∈ accountIds db) (hu : u.id ∈ accountIds db) (hEq : EqualAmounts db)
    (r : Txn × Option Nat) (db5 : Db)
    (h : debitAtomic s u userId amount pid d i o now db = .ok (r, db5)) :
    totalBalance db5 = totalBalance db ∧ totalNet db5 = totalNet db ∧
    EqualAmounts db5 := by
  have hmove := conservation_moveFunds (createTxn db
    { id := i, type := .DEBIT, state := .HOLD,
      accountAId := u.id, accountBId := s.id,
      amountOut := amount, amountIn := amount,
      meta := { productId := pid, description := d } }) u.id s.id amount hnd hu hs
  have hEq4 : EqualAmounts (updateTxn (updateAccount (updateAccount (createTxn db
      { id := i, type := .DEBIT, state := .HOLD,
        accountAId := u.id, accountBId := s.id,
        amountOut := amount, amountIn := amount,
        meta := { productId := pid, description := d } }) u.id
      (fun a => { a with balance := a.balance - amount, outgoing := a.outgoing + amount }))
      s.id
      (fun a => { a with balance := a.balance + amount, incoming := a.incoming + amount }))
      i (fun t => { t with state := .COMPLETED, completedAt := some now })) :=
    equalAmounts_updateTxn _ i _ (fun _ => ⟨rfl, rfl⟩)
      (equalAmounts_createTxn db _ hEq rfl)
  unfold debitAtomic at h
  simp only [] at h
  split at h
  · cases h
    exact ⟨hmove.1, hmove.2, hEq4⟩
  · split at h
    · cases h
    · cases h
      exact ⟨hmove.1, hmove.2, hEq4⟩

lemma conservation_debit (db : Db) (userId : Nat) (amount : ℚ) (pid : Option Nat)
    (d : Option String) (i o now : Nat)
    (hnd : (accountIds db).Nodup) (hEq : EqualAmounts db) :
    totalBalance (debit db userId amount pid d i o now).2 = totalBalance db ∧
    totalNet (debit db userId amount pid d i o now).2 = totalNet db ∧
    EqualAmounts (debit db userId amount pid d i o now).2 := by
  unfold debit
  split
  · exact ⟨rfl, rfl, hEq⟩
  · split
    · exact ⟨rfl, rfl, hEq⟩
    · rename_i s hs
      split
      · exact ⟨rfl, rfl, hEq⟩
      · rename_i u hu
        split
        · exact ⟨rfl, rfl, hEq⟩
        · split
          · exact ⟨rfl, rfl, hEq⟩
          · split
            · exact ⟨rfl, rfl, hEq⟩
            · split
              · exact ⟨rfl, rfl, hEq⟩
              · rename_i r db5 hatomic
                have hc := conservation_debitAtomic s u userId amount pid d i o now db
                  hnd (getByUserId_mem db 1 s hs) (getByUserId_mem db userId u hu) hEq
                  r db5 hatomic
                split
                · exact hc
                · exact hc

lemma conservation_purchaseWithBalance (db : Db) (userId productId i o now : Nat)
    (hnd : (accountIds db).Nodup) (hEq : EqualAmounts db) :
    totalBalance (purchaseWithBalance db userId productId i o now).2 = totalBalance db ∧
    totalNet (purchaseWithBalance db userId productId i o now).2 = totalNet db ∧
    EqualAmounts (purchaseWithBalance db userId productId i o now).2 := by
  unfold purchaseWithBalance
  split
  · exact ⟨rfl, rfl, hEq⟩
  · rename_i product hp
    split
    · exact ⟨rfl, rfl, hEq⟩
    · split
      · exact ⟨rfl, rfl, hEq⟩
      · rename_i u hu
        split
        · exact ⟨rfl, rfl, hEq⟩
        · split
          · exact ⟨rfl, rfl, hEq⟩
          · rename_i sUserId hsu
            split
            · exact ⟨rfl, rfl, hEq⟩
            · rename_i s hs
              split
              · exact ⟨rfl, rfl, hEq⟩
              · rename_i ptxn db1 hinit
                have hi := conservation_initiateTransfer db u.id s.id product.price
                  .PRODUCT_PURCHASE _ i ptxn db1 hinit
                split
                · exact ⟨hi.2.1, hi.2.2.1, hi.2.2.2.2 hEq⟩
                · have hmove := conservation_moveFunds db1 u.id s.id product.price
                    (hi.2.2.2.1 ▸ hnd) (hi.2.2.2.1 ▸ getByUserId_mem db userId u hu)
                    (hi.2.2.2.1 ▸ getByUserId_mem db sUserId s hs)
                  refine ⟨hmove.1.trans hi.2.1, hmove.2.trans hi.2.2.1, ?_⟩
                  exact equalAmounts_updateTxn _ ptxn.id _ (fun _ => ⟨rfl, rfl⟩)
                    (hi.2.2.2.2 hEq)

lemma conservation_completePayTransaction (db db' : Db) (tid a b now : Nat)
    (hnd : (accountIds db).Nodup) (hFK : TxnAccountsExist db) (hEq : EqualAmounts db)
    (h : completePayTransaction db tid a b now = .ok db') :
    totalBalance db' = totalBalance db ∧ totalNet db' = totalNet db ∧
    EqualAmounts db' := by
  unfold completePayTransaction at h
  split at h
  · cases h
  · rename_i refill ht
    split at h
    · cases h
      exact ⟨rfl, rfl, hEq⟩
    · split at h
      · cases h
      · simp only [] at h
        have hmem := findTxn_mem db tid refill ht
        have hFKr := hFK refill hmem
        have hacr := conservation_applyComplete refill db hnd hFKr.1 hFKr.2 (hEq refill hmem)
        have hEq2 : EqualAmounts (updateTxn (applyComplete refill db) tid
            (fun t => { t with state := .COMPLETED, completedAt := some now })) :=
          equalAmounts_updateTxn _ tid _ (fun _ => ⟨rfl, rfl⟩) hEq
        have hids2 : accountIds (updateTxn (applyComplete refill db) tid
            (fun t => { t with state := .COMPLETED, completedAt := some now })) =
            accountIds db := accountIds_applyComplete refill db
        split at h
        · -- meta.productId = none
          cases h
          exact ⟨hacr.1, hacr.2, equalAmounts_updateTxn _ tid _ (fun _ => ⟨rfl, rfl⟩) hEq2⟩
        · -- meta.productId = some pid
          rename_i pid hpid
          split at h
          · cases h
          · rename_i product hprod
            split at h
            · cases h
            · rename_i buyerAccount hbuyer
              split at h
              · cases h
              · rename_i sellerAccount hseller
                have hsellerMem : sellerAccount.id ∈ accountIds
                    (updateTxn (applyComplete refill db) tid
                      (fun t => { t with state := .COMPLETED, completedAt := some now })) :=
                  findAccountByUserId_mem _ 1 sellerAccount hseller
                have hBmem : refill.accountBId ∈ accountIds
                    (updateTxn (applyComplete refill db) tid
                      (fun t => { t with state := .COMPLETED, completedAt := some now })) :=
                  hids2.symm ▸ hFKr.2
                have hnd2 : (accountIds (updateTxn (applyComplete refill db) tid
                    (fun t => { t with state := .COMPLETED,
                                       completedAt := some now }))).Nodup :=
                  hids2.symm ▸ hnd
                split at h
                · -- partial payment: second PRODUCT_PURCHASE leg for the card part
                  split at h
                  · cases h
                  · rename_i balanceTransaction hbal
                    cases h
                    have hac2 := conservation_applyComplete _ _ hnd2 hBmem hsellerMem
                      (rfl :
                        ({ id := a, type := .PRODUCT_PURCHASE, state := .HOLD,
                           accountAId := refill.accountBId,
                           accountBId := sellerAccount.id,
                           amountOut := refill.amountIn, amountIn := refill.amountIn,
                           meta := { productId := some pid, partFlag := true,
                                     partType := some "card_refill",
                                     linkedTransactionId :=
                                       some balanceTransaction.id } } : Txn).amountIn = _)
                    refine ⟨hac2.1.trans hacr.1, hac2.2.trans hacr.2, ?_⟩
                    exact equalAmounts_updateTxn _ tid _ (fun _ => ⟨rfl, rfl⟩)
                      (equalAmounts_updateTxn _ a _ (fun _ => ⟨rfl, rfl⟩)
                        (equalAmounts_createTxn _ _ hEq2 rfl))
                · -- full card payment: a single full-price PRODUCT_PURCHASE leg
                  cases h
                  have hac2 := conservation_applyComplete _ _ hnd2 hBmem hsellerMem
                    (rfl :
                      ({ id := a, type := .PRODUCT_PURCHASE, state := .HOLD,
                         accountAId := refill.accountBId,
                         accountBId := sellerAccount.id,
                         amountOut := product.price, amountIn := product.price,
                         meta := { productId := some pid } } : Txn).amountIn = _)
                  refine ⟨hac2.1.trans hacr.1, hac2.2.trans hacr.2, ?_⟩
                  exact equalAmounts_updateTxn _ tid _ (fun _ => ⟨rfl, rfl⟩)
                    (equalAmounts_updateTxn _ a _ (fun _ => ⟨rfl, rfl⟩)
                      (equalAmounts_createTxn _ _ hEq2 rfl))

/-- **C10.** Every transaction the system creates carries `amountIn = amountOut`
(the equal-amounts invariant is preserved by every operation, and `initiateTransfer`
returns a row with equal amounts), so every ledger-mutating operation — transfer
initiation, credit, debit, both completion paths, failure, and the balance purchase —
leaves both the sum of cached balances and the sum of `incoming − outgoing` over all
accounts (service account included) unchanged. -/
theorem zero_sum_conservation :
    (∀ (db : Db) (A B : Nat) (amount : ℚ) (ty : TransactionType) (m : TxnMeta)
       (i : Nat) (t : Txn) (db1 : Db),
      initiateTransfer db A B amount ty m i = .ok (t, db1) →
      t.amountIn = t.amountOut ∧ totalBalance db1 = totalBalance db ∧
        totalNet db1 = totalNet db ∧ (EqualAmounts db → EqualAmounts db1)) ∧
    (∀ (db : Db) (userId : Nat) (amount : ℚ) (d : Option String) (i now : Nat),
      (accountIds db).Nodup → EqualAmounts db →
      totalBalance (credit db userId amount d i now).2 = totalBalance db ∧
      totalNet (credit db userId amount d i now).2 = totalNet db ∧
      EqualAmounts (credit db userId amount d i now).2) ∧
    (∀ (db : Db) (userId : Nat) (amount : ℚ) (pid : Option Nat) (d : Option String)
       (i o now : Nat),
      (accountIds db).Nodup → EqualAmounts db →
      totalBalance (debit db userId amount pid d i o now).2 = totalBalance db ∧
      totalNet (debit db userId amount pid d i o now).2 = totalNet db ∧
      EqualAmounts (debit db userId amount pid d i o now).2) ∧
    (∀ (db : Db) (tid now : Nat) (r : Txn) (db2 : Db),
      (accountIds db).Nodup → TxnAccountsExist db → EqualAmounts db →
      completeImmediately db tid now = .ok (r, db2) →
      totalBalance db2 = totalBalance db ∧ totalNet db2 = totalNet db ∧
      EqualAmounts db2) ∧
    (∀ (db db' : Db) (tid aa bb now : Nat),
      (accountIds db).Nodup → TxnAccountsExist db → EqualAmounts db →
      completePayTransaction db tid aa bb now = .ok db' →
      totalBalance db' = totalBalance db ∧ totalNet db' = totalNet db ∧
      EqualAmounts db') ∧
    (∀ (db : Db) (tid : Nat) (db2 : Db),
      EqualAmounts db → failTransaction db tid = .ok db2 →
      totalBalance db2 = totalBalance db ∧ totalNet db2 = totalNet db ∧
      EqualAmounts db2) ∧
    (∀ (db : Db) (userId productId i o now : Nat),
      (accountIds db).Nodup → EqualAmounts db →
      totalBalance (purchaseWithBalance db userId productId i o now).2 = totalBalance db ∧
      totalNet (purchaseWithBalance db userId productId i o now).2 = totalNet db ∧
      EqualAmounts (purchaseWithBalance db userId productId i o now).2) :=
  ⟨fun db A B amount ty m i t db1 h =>
      (conservation_initiateTransfer db A B amount ty m i t db1 h).imp id
        (fun hx => ⟨hx.1, hx.2.1, hx.2.2.2⟩),
   fun db userId amount d i now hnd hEq =>
      conservation_credit db userId amount d i now hnd hEq,
   fun db userId amount pid d i o now hnd hEq =>
      conservation_debit db userId amount pid d i o now hnd hEq,
   fun db tid now r db2 hnd hFK hEq h =>
      conservation_completeImmediately db tid now r db2 hnd hFK hEq h,
   fun db db' tid aa bb now hnd hFK hEq h =>
      conservation_completePayTransaction db db' tid aa bb now hnd hFK hEq h,
   fun db tid db2 hEq h => conservation_failTransaction db tid db2 hEq h,
   fun db userId productId i o now hnd hEq =>
      conservation_purchaseWithBalance db userId productId i o now hnd hEq⟩

/-- Witness for C10: the concrete refill completion on `c2db` conserves both sums. -/
theorem zero_sum_conservation_witness :
    totalBalance c2dbAfter = totalBalance c2db ∧ totalNet c2dbAfter = totalNet c2db ∧
    EqualAmounts c2dbAfter :=
  zero_sum_conservation.2.2.2.2.1 c2db c2dbAfter 1 90 91 5
    (by decide)
    (by intro t htm; rw [List.mem_singleton.mp htm]; exact ⟨by decide, by decide⟩)
    (by intro t htm; rw [List.mem_singleton.mp htm])
    c2_first_call

/-! ## C7: partial-payment conservation -/

/-- The canonical partial-payment start state: a user (account 2) holding cached and
history balance `bal`, the service account (1), and one active product priced `price`. -/
def db0 (bal price : ℚ) : Db :=
  { users := [1, 2]
    accounts := [{ id := 1, userId := 1, balance := 0, incoming := 0, outgoing := 0 },
                 { id := 2, userId := 2, balance := bal, incoming := bal, outgoing := 0 }]
    transactions := []
    orders := []
    products := [{ id := 10, price := price, active := true }] }

/-- The balance-covered PRODUCT_PURCHASE leg after `createPaymentLink`. -/
def c7balanceLeg (b : ℚ) : Txn :=
  { id := 100, type := .PRODUCT_PURCHASE, state := .COMPLETED,
    accountAId := 2, accountBId := 1, amountOut := b, amountIn := b,
    meta := { productId := some 10, partFlag := true, partType := some "balance",
              source := some "balance" },
    completedAt := some 5 }

/-- The HOLD ACCOUNT_REFILL for the card-covered remainder, with its provider ids. -/
def c7refill (b p : ℚ) : Txn :=
  { id := 101, type := .ACCOUNT_REFILL, state := .HOLD,
    accountAId := 1, accountBId := 2, amountOut := p - b, amountIn := p - b,
    meta := { provider := some "stub", productId := some 10, purpose := some "purchase",
              partFlag := true, balancePart := some b, cardPart := some (p - b),
              linkedTransactionId := some 100 },
    providerSessionId := some 500, paymentIntentId := some 600 }

/-- The state after `createPaymentLink` in the partial flow. -/
def c7db1 (b p : ℚ) : Db :=
  { users := [1, 2]
    accounts := [{ id := 1, userId := 1, balance := b, incoming := b, outgoing := 0 },
                 { id := 2, userId := 2, balance := 0, incoming := b, outgoing := b }]
    transactions := [c7balanceLeg b, c7refill b p]
    orders := []
    products := [{ id := 10, price := p, active := true }] }

lemma c7_link_eval (b p : ℚ) (hb : 0 < b) (hbp : b < p) :
    createPaymentLink (db0 b p) 2 (some 10) 100 101 500 600 5 =
      (.ok { transactionId := 101, paymentIntentId := 600 }, c7db1 b p) := by
  have h1 : ¬(p ≤ b) := not_le.mpr hbp
  have h2 : ¬(b ≤ 0) := not_le.mpr hb
  have h3 : ¬(p - b ≤ 0) := not_le.mpr (sub_pos.mpr hbp)
  have hs1 : TransactionState.HOLD ≠ TransactionState.COMPLETED := by decide
  have hs2 : TransactionState.HOLD ≠ TransactionState.PENDING := by decide
  norm_num [createPaymentLink, findUserById, getByUserId, findAccountByUserId,
    findProductById, findProduct, initiateTransfer, completeImmediately, findTxn,
    createTxn, applyComplete, updateAccount, updateTxn, db0, c7db1, c7balanceLeg,
    c7refill, List.find?, h1, h2, h3, hb, hbp, hs1, hs2]

/-- The card-covered PRODUCT_PURCHASE leg created by `completePayTransaction`. -/
def c7cardLeg (b p : ℚ) : Txn :=
  { id := 102, type := .PRODUCT_PURCHASE, state := .COMPLETED,
    accountAId := 2, accountBId := 1, amountOut := p - b, amountIn := p - b,
    meta := { productId := some 10, partFlag := true, partType := some "card_refill",
              linkedTransactionId := some 100 },
    completedAt := some 6 }

/-- The refill after completion: COMPLETED, with its meta annotated with the two
purchase transaction ids and the order id. -/
def c7refillDone (b p : ℚ) : Txn :=
  { c7refill b p with
    state := .COMPLETED, completedAt := some 6,
    meta := { (c7refill b p).meta with
              purchaseTransactionIds := [100, 102], orderId := some 200 } }

/-- The final state of the partial-payment flow. -/
def c7db2 (b p : ℚ) : Db :=
  { users := [1, 2]
    accounts := [{ id := 1, userId := 1, balance := b, incoming := b + (p - b),
                   outgoing := p - b },
                 { id := 2, userId := 2, balance := 0, incoming := b + (p - b),
                   outgoing := b + (p - b) }]
    transactions := [c7balanceLeg b, c7refillDone b p, c7cardLeg b p]
    orders := [{ id := 200, productId := 10, buyerUserId := 2, sellerUserId := 1,
                 totalPrice := p, status := .PAID }]
    products := [{ id := 10, price := p, active := true }] }

lemma c7_complete_eval (b p : ℚ) :
    completePayTransaction (c7db1 b p) 101 102 200 6 = .ok (c7db2 b p) := by
  have hs1 : TransactionState.HOLD ≠ TransactionState.COMPLETED := by decide
  have hs2 : TransactionState.HOLD ≠ TransactionState.PENDING := by decide
  norm_num [completePayTransaction, findTxn, findProduct, findAccountById,
    findAccountByUserId, createTxn, createOrder, applyComplete, updateAccount,
    updateTxn, c7db1, c7db2, c7balanceLeg, c7refill, c7refillDone, c7cardLeg,
    List.find?, hs1, hs2]

/-- **C7.** For every user with `0 < balance < price`, the partial-payment flow
(`createPaymentLink` then the success-webhook `completePayTransaction`) completes with:
a balance-covered PRODUCT_PURCHASE leg of amount `balance` and a card-covered
PRODUCT_PURCHASE leg of amount `price − balance` (their sum is the full price), both
COMPLETED and tagged with the product; the refill's meta referencing exactly those two
legs; a PAID Order at the full product price; and exactly two COMPLETED
PRODUCT_PURCHASE rows in the final ledger. -/
theorem partial_payment_conservation (b p : ℚ) (hb : 0 < b) (hbp : b < p) :
    (createPaymentLink (db0 b p) 2 (some 10) 100 101 500 600 5).1 =
      .ok { transactionId := 101, paymentIntentId := 600 } ∧
    ∃ db2, completePayTransaction
        (createPaymentLink (db0 b p) 2 (some 10) 100 101 500 600 5).2 101 102 200 6 =
          .ok db2 ∧
      (findTxn db2 100).map (fun t => (t.type, t.state, t.meta.productId, t.amountOut)) =
        some (.PRODUCT_PURCHASE, .COMPLETED, some 10, b) ∧
      (findTxn db2 102).map (fun t => (t.type, t.state, t.meta.productId, t.amountOut)) =
        some (.PRODUCT_PURCHASE, .COMPLETED, some 10, p - b) ∧
      b + (p - b) = p ∧
      (findTxn db2 101).map (fun t => (t.state, t.meta.purchaseTransactionIds)) =
        some (.COMPLETED, [100, 102]) ∧
      (findOrder db2 200).map (fun o => (o.totalPrice, o.status)) = some (p, .PAID) ∧
      (db2.transactions.filter (fun t =>
        t.type = .PRODUCT_PURCHASE ∧ t.state = .COMPLETED)).length = 2 := by
  rw [c7_link_eval b p hb hbp]
  have ht3 : TransactionType.ACCOUNT_REFILL ≠ TransactionType.PRODUCT_PURCHASE := by
    decide
  refine ⟨rfl, c7db2 b p, c7_complete_eval b p, ?_, ?_, by ring, ?_, ?_, ?_⟩ <;>
    norm_num [findTxn, findOrder, c7db2, c7balanceLeg, c7refillDone, c7refill,
      c7cardLeg, List.find?, List.filter, ht3]

/-- Witness for C7 at balance 30 and price 100. -/
theorem partial_payment_conservation_witness :
    (0 : ℚ) < 30 ∧ (30 : ℚ) < 100 ∧
    (createPaymentLink (db0 30 100) 2 (some 10) 100 101 500 600 5).1 =
      .ok { transactionId := 101, paymentIntentId := 600 } :=
  ⟨by norm_num, by norm_num,
   (partial_payment_conservation 30 100 (by norm_num) (by norm_num)).1⟩

end HellTV
